import Mathlib

/-!
# DispObject (winax `src/disp.cpp`): a shallow embedding

The wrapper nodes of `disp.cpp` are modelled as records in a heap (`State.nodes`),
the `DispInfo` endpoints they share as immutable values carrying a unique id and
their weak parent chain, and the native Automation world as an oracle (`Env`)
whose answers may depend on the whole history of native calls (`State.trace`).

Pieces of the program that live in headers which are not part of the sources at
hand (`disp.h`, `utils.h`) are taken as parameters of `Env` (numeric flag values,
the `DispInfo` methods, the variant bridge) or are marked `Modelled from the spec`.
-/

namespace Winax

/-! ## Native scalar types and Windows constants -/

/-- A native result code (signed 32 bit). -/
abbrev HRESULT := Int
/-- A dispatch member id. -/
abbrev DISPID := Int
/-- Identity of a native `IDispatch` interface pointer. -/
abbrev IDispatch := Nat
/-- Index of a wrapper node (`DispObject`) in the host heap. -/
abbrev NodeId := Nat

/-- The constant `DISPID_VALUE` of the Windows SDK: the default member. -/
def DISPID_VALUE : DISPID := 0
/-- The constant `DISPID_UNKNOWN` of the Windows SDK: the unresolved member id. -/
def DISPID_UNKNOWN : DISPID := -1
/-- The result code `S_OK`. -/
def S_OK : HRESULT := 0
/-- The result code `E_UNEXPECTED` = 0x8000FFFF as a signed 32-bit value. -/
def E_UNEXPECTED : HRESULT := -2147418113
/-- The result code `E_INVALIDARG` = 0x80070057 as a signed 32-bit value. -/
def E_INVALIDARG : HRESULT := -2147024809
/-- The result code `E_FAIL` = 0x80004005 as a signed 32-bit value. -/
def E_FAIL : HRESULT := -2147467259

/-- The `FAILED` macro of the Windows SDK: the sign bit of the result code is set. -/
def FAILED (hr : HRESULT) : Bool := decide (hr < 0)
/-- The `SUCCEEDED` macro of the Windows SDK. -/
def SUCCEEDED (hr : HRESULT) : Bool := decide (0 ≤ hr)

/-! ## Values at the native and at the host boundary -/

/-- A native Automation value (`VARIANT`). `other` stands for the variant types
whose payload plays no part in the control flow of `disp.cpp`. -/
inductive Variant where
  | empty
  | null
  | bool (b : Bool)
  | int (i : Int)
  | str (s : String)
  | dispatch (p : IDispatch)
  | other (code : Nat)
  deriving DecidableEq, Repr

/-- Modelled from the spec: `VariantDispGet` (declared in `utils.h`, not part of the
sources at hand) extracts the dispatch interface of a dispatch-typed variant
("results that are themselves dispatch interfaces are wrapped into new nodes"). -/
def VariantDispGet : Variant → Option IDispatch
  | Variant.dispatch p => some p
  | _ => none

/-- A host scalar. -/
inductive Prim where
  | undefined
  | null
  | bool (b : Bool)
  | int (i : Int)
  | str (s : String)
  deriving DecidableEq, Repr

/-- A host value: a scalar, a wrapper node (a host object with a `DispObject` in its
internal field), or a plain host object with its properties. -/
inductive HostValue where
  | undefined
  | null
  | bool (b : Bool)
  | int (i : Int)
  | str (s : String)
  | node (id : NodeId)
  | object (props : List (String × Prim))
  deriving DecidableEq, Repr

/-- The call `v->IsObject()`. -/
def HostValue.IsObject : HostValue → Bool
  | HostValue.node _ => true
  | HostValue.object _ => true
  | _ => false

/-- The call `v->IsString()`. -/
def HostValue.IsString : HostValue → Bool
  | HostValue.str _ => true
  | _ => false

/-- The call `obj->Get(key)` on a host object: the property, or `undefined`. -/
def HostValue.Get : HostValue → String → Prim
  | HostValue.object props, key =>
      match props.find? (fun kv => kv.1 == key) with
      | some kv => kv.2
      | none => Prim.undefined
  | _, _ => Prim.undefined

/-- Exceptions thrown into the host. -/
inductive HostError where
  | InvalidArgumentsError
  | TypeError (msg : String)
  | DispErrorNull
  | DispErrorInvalid
  | DispError (hrcode : HRESULT) (op : String) (tag : String)
  | Win32Error (hrcode : HRESULT) (op : String)
  | Fatal (msg : String)
  deriving DecidableEq, Repr

/-! ## DispInfo and DispObject -/

/-- One Automation endpoint (`DispInfo`). It is immutable once built, so a
`shared_ptr<DispInfo>` is modelled by the value itself, identified by `id`; the weak
parent reference is the `parent` of `child` (a `root` has an empty weak reference).
Whether a weak reference can still be locked is decided against the heap
(`State.alive`). -/
inductive DispInfo where
  | root (id : Nat) (ptr : IDispatch) (name : String) (options : Nat)
  | child (id : Nat) (ptr : IDispatch) (name : String) (options : Nat) (parent : DispInfo)
  deriving DecidableEq, Repr

namespace DispInfo

/-- The identity of the instance. -/
def id : DispInfo → Nat
  | root i _ _ _ => i
  | child i _ _ _ _ => i

/-- The native interface pointer (`ptr`). -/
def ptr : DispInfo → IDispatch
  | root _ p _ _ => p
  | child _ p _ _ _ => p

/-- The display name (`name`). -/
def name : DispInfo → String
  | root _ _ n _ => n
  | child _ _ n _ _ => n

/-- The option bitset (`options`). -/
def options : DispInfo → Nat
  | root _ _ _ o => o
  | child _ _ _ o _ => o

/-- The weak parent reference (`parent`); `none` is the empty reference. -/
def parent : DispInfo → Option DispInfo
  | root _ _ _ _ => none
  | child _ _ _ _ p => some p

end DispInfo

/-- The fields of the C++ class `DispObject`. `disp` is the shared pointer to the
node's `DispInfo` (`none` is the null pointer). -/
structure DispObject where
  disp : Option DispInfo
  options : Nat
  name : String
  dispid : DISPID
  index : Int
  deriving DecidableEq, Repr

/-- A cached member descriptor (`DispInfo::type_t`): invocation kind and number of
parameters. -/
structure TypeDesc where
  invkind : Nat
  cParams : Nat
  deriving DecidableEq, Repr

/-- Native calls, in the order they were issued. `prepareGet` is the property-get
issued by `DispObject::prepare` of the given node and `valueGet` the one issued by
`valueOf`; both use the `(dispid, index)` overload of `DispInfo::GetProperty`. -/
inductive Event where
  | CLSIDFromProgID (name : String)
  | GetActiveObject (clsid : Nat)
  | CoCreateInstance (clsid : Nat)
  | prepareGet (node : NodeId) (ptr : IDispatch) (dispid : DISPID) (index : Int)
  | valueGet (node : NodeId) (ptr : IDispatch) (dispid : DISPID) (index : Int)
  | FindProperty (ptr : IDispatch) (tag : String)
  | GetProperty (ptr : IDispatch) (dispid : DISPID) (args : List Variant)
  | SetProperty (ptr : IDispatch) (dispid : DISPID) (args : List Variant)
  | ExecuteMethod (ptr : IDispatch) (dispid : DISPID) (args : List Variant)
  deriving DecidableEq, Repr

/-- Everything `disp.cpp` uses but does not define: the option flags of `disp.h`, the
`DispInfo` methods (answers of the native world, which may depend on the calls made
so far), the member classification, the variant bridge of `utils.h` and the COM
activation functions. -/
structure Env where
  option_async : Nat
  option_type : Nat
  option_activate : Nat
  option_prepared : Nat
  option_owned : Nat
  option_property : Nat
  option_mask : Nat
  FindProperty : List Event → DispInfo → String → HRESULT × DISPID
  GetTypeInfo : List Event → DispInfo → DISPID → Option TypeDesc
  GetPropertyIndex : List Event → DispInfo → DISPID → Int → HRESULT × Variant
  GetProperty : List Event → DispInfo → DISPID → List Variant → HRESULT × Variant
  SetProperty : List Event → DispInfo → DISPID → List Variant → HRESULT × Variant
  ExecuteMethod : List Event → DispInfo → DISPID → List Variant → HRESULT × Variant
  is_property : TypeDesc → Bool
  is_property_simple : TypeDesc → Bool
  Variant2Value : Variant → HostValue
  Variant2String : Variant → HostValue
  VarArguments : List HostValue → List Variant
  v8val2bool : Prim → Bool → Bool
  CLSIDFromProgID : String → HRESULT × Nat
  GetActiveObject : List Event → Nat → HRESULT × IDispatch
  CoCreateInstance : List Event → Nat → HRESULT × IDispatch
  DispObjectImpl : HostValue → IDispatch

/-- The host heap of wrapper nodes, the allocation counter of `DispInfo` instances,
the native calls made so far, and the two static template handles. -/
structure State where
  nodes : List DispObject
  nextInfo : Nat
  trace : List Event
  inst_template : Bool
  clazz_template : Bool
  deriving DecidableEq, Repr

/-- What a host callback leaves behind: the `bool` it returned (where it has one), the
exception it threw, and the value it stored in `args.GetReturnValue()`. -/
structure CallbackResult where
  ok : Bool
  exception : Option HostError
  retval : Option HostValue
  deriving DecidableEq, Repr

namespace DispObject

/-- Modelled from the spec: `is_prepared()` (inline in `disp.h`) tests the "already
prepared" flag that the constructor and `prepare` set. -/
def is_prepared (env : Env) (self : DispObject) : Bool :=
  self.options &&& env.option_prepared != 0

/-- Modelled from the spec: `is_object()` (inline in `disp.h`): the node stands for the
value of its object, its member id is the default member. -/
def is_object (self : DispObject) : Bool :=
  self.dispid == DISPID_VALUE

/-- The constructor `DispObject::DispObject(ptr, nm, id, indx, opt)`. -/
def init (env : Env) (ptr : DispInfo) (nm : String) (id : DISPID) (indx : Int) (opt : Nat) :
    DispObject :=
  let options := (ptr.options &&& env.option_mask) ||| opt
  if id = DISPID_UNKNOWN then
    { disp := some ptr, options := options ||| env.option_prepared, name := nm,
      dispid := DISPID_VALUE, index := indx }
  else
    { disp := some ptr, options := options ||| env.option_owned, name := nm,
      dispid := id, index := indx }

/-- The function `DispObject::release`. -/
def release (self : DispObject) : DispObject × Bool :=
  match self.disp with
  | none => (self, false)
  | some _ => ({ self with disp := none }, true)

end DispObject

/-- Modelled from the spec: the constructor of `DispInfo` (in `disp.h`):
`new DispInfo(ptr, name, options, &parent)` records the parent as a weak
back-reference; without a parent (or with a null one) the reference is empty. -/
def DispInfo.make (id : Nat) (ptr : IDispatch) (name : String) (options : Nat)
    (parent : Option DispInfo) : DispInfo :=
  match parent with
  | some p => DispInfo.child id ptr name options p
  | none => DispInfo.root id ptr name options

/-- The static `DispObject::NodeCreate(isolate, parent, ptr, name, id, index, opt)`:
a new instance of the instance template wrapping a new `DispObject`; an empty handle
(`none`) when the template is empty. The new node takes the next free heap index. -/
def NodeCreateObj (env : Env) (s : State) (ptr : DispInfo) (name : String) (id : DISPID)
    (index : Int) (opt : Nat) : State × Option HostValue :=
  if s.inst_template then
    ({ s with nodes := s.nodes ++ [DispObject.init env ptr name id index opt] },
      some (HostValue.node s.nodes.length))
  else (s, none)

namespace DispObject

/-- The function `DispObject::prepare`, run on node `n` whose fields are `self`. -/
def prepare (env : Env) (n : NodeId) (self : DispObject) (s : State) :
    DispObject × State × HRESULT :=
  let r : (HRESULT × Variant) × List Event :=
    match self.disp with
    | some d => (env.GetPropertyIndex s.trace d self.dispid self.index,
        s.trace ++ [Event.prepareGet n d.ptr self.dispid self.index])
    | none => ((E_UNEXPECTED, Variant.empty), s.trace)
  let hrcode := r.1.1
  let value := r.1.2
  let options := self.options ||| env.option_prepared
  match VariantDispGet value with
  | some ptr =>
      ({ self with
          disp := some (DispInfo.make s.nextInfo ptr self.name options self.disp),
          options := options, dispid := DISPID_VALUE },
        { s with trace := r.2, nextInfo := s.nextInfo + 1 }, hrcode)
  | none => ({ self with options := options }, { s with trace := r.2 }, hrcode)

/-- The statement `if (!is_prepared()) prepare();` that opens `get`, `set` and both
`valueOf`. -/
def ensure_prepared (env : Env) (n : NodeId) (self : DispObject) (s : State) :
    DispObject × State :=
  if self.is_prepared env then (self, s)
  else ((self.prepare env n s).1, (self.prepare env n s).2.1)

/-- The second half of `DispObject::get`, from "Check type info" to the end: `disp` is
the node's DispatchInfo, `tag`, `propid` and `prop_by_key` are what the search of the
member id left. -/
def get_found (env : Env) (self : DispObject) (s : State) (disp : DispInfo) (tag : String)
    (propid : DISPID) (prop_by_key : Bool) (index : Int) :
    DispObject × State × CallbackResult :=
  -- Check type info
  let ti : Nat × Bool :=
    if prop_by_key then (0 ||| env.option_property, true)
    else
      match env.GetTypeInfo s.trace disp propid with
      | some disp_info =>
          (if env.is_property disp_info then 0 ||| env.option_property else 0,
            env.is_property_simple disp_info)
      | none => (0, false)
  let opt := ti.1
  let is_property_simple := ti.2
  if is_property_simple then
    -- Return as property value
    let vargs := (if prop_by_key then [Variant.str tag] else [])
      ++ (if 0 ≤ index then [Variant.int index] else [])
    let r := env.GetProperty s.trace disp propid vargs
    let s := { s with trace := s.trace ++ [Event.GetProperty disp.ptr propid vargs] }
    if FAILED r.1 && self.dispid != DISPID_VALUE then
      (self, s, ⟨false, some (HostError.DispError r.1 "DispPropertyGet" tag), none⟩)
    else
      match VariantDispGet r.2 with
      | some ptr =>
          let disp_result := DispInfo.make s.nextInfo ptr tag self.options (some disp)
          let c := NodeCreateObj env { s with nextInfo := s.nextInfo + 1 } disp_result tag
            DISPID_UNKNOWN (-1) opt
          (self, c.1, ⟨true, none, c.2⟩)
      | none => (self, s, ⟨true, none, some (env.Variant2Value r.2)⟩)
  else
    -- Return as dispatch object
    let c := NodeCreateObj env s disp tag propid index opt
    (self, c.1, ⟨true, none, c.2⟩)

/-- The function `DispObject::get(tag, index, args)`; `tag = none` is the null tag of
an indexed access. Returns the receiver, the state and what the callback left behind.
The part after the search of the member id is `get_found`. -/
def get (env : Env) (n : NodeId) (self : DispObject) (s : State) (tag : Option String)
    (index : Int) : DispObject × State × CallbackResult :=
  let p := self.ensure_prepared env n s
  let self := p.1
  let s := p.2
  match self.disp with
  | none => (self, s, ⟨false, some HostError.DispErrorNull, none⟩)
  | some disp =>
    -- Search dispid
    match tag with
    | none => self.get_found env s disp self.name self.dispid false index
    | some tag =>
      let r := env.FindProperty s.trace disp tag
      let s1 := { s with trace := s.trace ++ [Event.FindProperty disp.ptr tag] }
      let hrcode := if SUCCEEDED r.1 && r.2 == DISPID_UNKNOWN then E_INVALIDARG else r.1
      if FAILED hrcode then
        if self.options &&& env.option_property != 0 then
          self.get_found env s1 disp tag self.dispid true index
        else (self, s1, ⟨false, none, some HostValue.undefined⟩)
      else self.get_found env s1 disp tag r.2 false index

/-- The function `DispObject::set(tag, index, value, args)`. The wrapper of a dispatch
result is created with the default arguments of `NodeCreate` (unresolved id, no
index, no option). -/
def set (env : Env) (n : NodeId) (self : DispObject) (s : State) (tag : Option String)
    (index : Int) (value : HostValue) : DispObject × State × CallbackResult :=
  let p := self.ensure_prepared env n s
  let self := p.1
  let s := p.2
  match self.disp with
  | none => (self, s, ⟨false, some HostError.DispErrorNull, none⟩)
  | some disp =>
    -- Search dispid
    let found : State × Except (HRESULT × String) (String × DISPID) :=
      match tag with
      | none => (s, Except.ok (self.name, self.dispid))
      | some tag =>
        let r := env.FindProperty s.trace disp tag
        let s1 := { s with trace := s.trace ++ [Event.FindProperty disp.ptr tag] }
        let hrcode := if SUCCEEDED r.1 && r.2 == DISPID_UNKNOWN then E_INVALIDARG else r.1
        if FAILED hrcode then (s1, Except.error (hrcode, tag))
        else (s1, Except.ok (tag, r.2))
    match found with
    | (s, Except.error (hrcode, tag)) =>
        (self, s, ⟨false, some (HostError.DispError hrcode "DispPropertyFind" tag), none⟩)
    | (s, Except.ok (tag, propid)) =>
      -- Set value using dispatch
      let vargs := env.VarArguments [value] ++ (if 0 ≤ index then [Variant.int index] else [])
      let r := env.SetProperty s.trace disp propid vargs
      let s := { s with trace := s.trace ++ [Event.SetProperty disp.ptr propid vargs] }
      if FAILED r.1 then
        (self, s, ⟨false, some (HostError.DispError r.1 "DispPropertyPut" tag), none⟩)
      else
        -- Send result
        match VariantDispGet r.2 with
        | some ptr =>
            let rtag := "@" ++ tag
            let disp_result := DispInfo.make s.nextInfo ptr tag self.options (some disp)
            let c := NodeCreateObj env { s with nextInfo := s.nextInfo + 1 } disp_result rtag
              DISPID_UNKNOWN (-1) 0
            (self, c.1, ⟨true, none, c.2⟩)
        | none => (self, s, ⟨true, none, some (env.Variant2Value r.2)⟩)

/-- The function `DispObject::call(isolate, args)`; `ok` records that the call ran to
its end. -/
def call (env : Env) (self : DispObject) (s : State) (args : List HostValue) :
    State × CallbackResult :=
  match self.disp with
  | none => (s, ⟨false, some HostError.DispErrorNull, none⟩)
  | some disp =>
    let vargs := env.VarArguments args
    let r :=
      if self.options &&& env.option_property == 0 then
        env.ExecuteMethod s.trace disp self.dispid vargs
      else env.GetProperty s.trace disp self.dispid vargs
    let s := { s with trace := s.trace ++
      [if self.options &&& env.option_property == 0 then
          Event.ExecuteMethod disp.ptr self.dispid vargs
        else Event.GetProperty disp.ptr self.dispid vargs] }
    if FAILED r.1 then
      (s, ⟨false, some (HostError.DispError r.1 "DispInvoke" self.name), none⟩)
    else
      -- Prepare result
      match VariantDispGet r.2 with
      | some ptr =>
          let tag := "@" ++ self.name
          let disp_result := DispInfo.make s.nextInfo ptr tag self.options (some disp)
          let c := NodeCreateObj env { s with nextInfo := s.nextInfo + 1 } disp_result tag
            DISPID_UNKNOWN (-1) 0
          (c.1, ⟨true, none, c.2⟩)
      | none => (s, ⟨true, none, some (env.Variant2Value r.2)⟩)

/-- The function `DispObject::valueOf(isolate, VARIANT &value)`. -/
def valueOfVariant (env : Env) (n : NodeId) (self : DispObject) (s : State) :
    DispObject × State × HRESULT × Variant :=
  let p := self.ensure_prepared env n s
  let self := p.1
  let s := p.2
  match self.disp with
  | none => (self, s, E_UNEXPECTED, Variant.empty)
  | some disp =>
    let r := env.GetPropertyIndex s.trace disp self.dispid self.index
    let s := { s with trace := s.trace ++ [Event.valueGet n disp.ptr self.dispid self.index] }
    if FAILED r.1 && self.is_object then (self, s, S_OK, Variant.dispatch disp.ptr)
    else (self, s, r.1, r.2)

/-- The function `DispObject::valueOf(isolate, self, Local<Value> &value)`; the value
stays unset (`none`) when the get fails on a node that is not an object. -/
def valueOf (env : Env) (n : NodeId) (self : DispObject) (s : State) :
    DispObject × State × HRESULT × Option HostValue :=
  let p := self.ensure_prepared env n s
  let self := p.1
  let s := p.2
  match self.disp with
  | none => (self, s, E_UNEXPECTED, none)
  | some disp =>
    let r := env.GetPropertyIndex s.trace disp self.dispid self.index
    let s := { s with trace := s.trace ++ [Event.valueGet n disp.ptr self.dispid self.index] }
    if SUCCEEDED r.1 then (self, s, r.1, some (env.Variant2Value r.2))
    else if self.is_object then (self, s, S_OK, some (HostValue.node n))
    else (self, s, r.1, none)

/-- The function `DispObject::toString(args)`. -/
def toString (env : Env) (n : NodeId) (self : DispObject) (s : State) :
    DispObject × State × CallbackResult :=
  let v := self.valueOfVariant env n s
  if FAILED v.2.2.1 then
    (v.1, v.2.1, ⟨false, some (HostError.Win32Error v.2.2.1 "DispToString"), none⟩)
  else (v.1, v.2.1, ⟨true, none, some (env.Variant2String v.2.2.2)⟩)

end DispObject

/-! ## Host callbacks -/

/-- What `DispObject::Unwrap<DispObject>(obj)` comes to. The class is declared in
`disp.h`, which is not among the sources; `disp.cpp` wraps its nodes with
`->Wrap(self)`, the `Wrap` and `Unwrap` of `node::ObjectWrap`. That `Unwrap` asserts
that the handle has an internal field and then reads the pointer stored in it:
`found` is the node behind a wrapper, `null` a wrapper whose internal field holds no
node, `abort` the failed assertion, which ends the process. -/
inductive Unwrapped where
  | found (id : NodeId) (self : DispObject)
  | null
  | abort
  deriving DecidableEq, Repr

/-- The function `DispObject::Unwrap<DispObject>(obj)`: the node behind a wrapper; a
host object that is no instance of the wrapper template has no internal field, and
the assertion of `node::ObjectWrap::Unwrap` fails on it. -/
def Unwrap (s : State) (obj : HostValue) : Unwrapped :=
  match obj with
  | HostValue.node id =>
      match s.nodes[id]? with
      | some nd => Unwrapped.found id nd
      | none => Unwrapped.null
  | _ => Unwrapped.abort

/-- What a callback leaves behind when the process aborts inside `Unwrap`. -/
def unwrapAborted : CallbackResult :=
  ⟨false, some (HostError.Fatal "node::ObjectWrap::Unwrap"), none⟩

/-- The conversion of a `uint32_t` index to the `LONG` parameter of `get` and `set`:
the low 32 bits, read as a signed value. -/
def toLONG (index : Nat) : Int :=
  if index % 2 ^ 32 < 2 ^ 31 then ((index % 2 ^ 32 : Nat) : Int)
  else ((index % 2 ^ 32 : Nat) : Int) - 2 ^ 32

/-- The function `DispObject::NodeInit`: both static templates are set. -/
def NodeInit (s : State) : State :=
  { s with inst_template := true, clazz_template := true }

/-- The option parsing of `DispObject::NodeCreate(args)` (the block that computes
`options` from `args[1]`), for options given as a plain host object or as no object.
Options given as a wrapper node are outside this definition: there `opt->Get` runs the
property interceptor of the node, and the definition reads them as having no such
properties. -/
def NodeCreate.options (env : Env) (args : List HostValue) : Nat :=
  let options := env.option_async ||| env.option_type
  if 1 < args.length then
    let argopt := args.getD 1 HostValue.undefined
    if argopt.IsObject then
      let o1 := if !env.v8val2bool (argopt.Get "async") true then
        options &&& (Nat.xor (2 ^ 32 - 1) env.option_async) else options
      let o2 := if !env.v8val2bool (argopt.Get "type") true then
        o1 &&& (Nat.xor (2 ^ 32 - 1) env.option_type) else o1
      let o3 := if env.v8val2bool (argopt.Get "activate") false then
        o2 ||| env.option_activate else o2
      o3
    else options
  else options

/-- The constructor part of `DispObject::NodeCreate(args)` (from "Create dispatch
object from ProgId" to the end), with the parsed `options`. The wrapped `this` is
the next free heap index; `env.GetActiveObject` stands for `GetActiveObject`
followed by `QueryInterface`. -/
def NodeCreate.construct (env : Env) (s : State) (args : List HostValue) (options : Nat) :
    State × CallbackResult :=
  let arg0 := args.getD 0 HostValue.undefined
  let r : State × HRESULT × String × IDispatch :=
    match arg0 with
    | HostValue.str vname =>
        if vname.length ≤ 0 then (s, E_INVALIDARG, "", 0)
        else
          let c := env.CLSIDFromProgID vname
          let s1 := { s with trace := s.trace ++ [Event.CLSIDFromProgID vname] }
          if SUCCEEDED c.1 then
            let a : State × HRESULT × IDispatch :=
              if options &&& env.option_activate == 0 then (s1, E_FAIL, 0)
              else
                ({ s1 with trace := s1.trace ++ [Event.GetActiveObject c.2] },
                  (env.GetActiveObject s1.trace c.2).1, (env.GetActiveObject s1.trace c.2).2)
            if FAILED a.2.1 then
              ({ a.1 with trace := a.1.trace ++ [Event.CoCreateInstance c.2] },
                (env.CoCreateInstance a.1.trace c.2).1, vname,
                (env.CoCreateInstance a.1.trace c.2).2)
            else (a.1, a.2.1, vname, a.2.2)
          else (s1, c.1, vname, 0)
    | _ =>
        if arg0.IsObject then (s, S_OK, "#", env.DispObjectImpl arg0)
        else (s, E_INVALIDARG, "", 0)
  -- Prepare result
  if FAILED r.2.1 then
    (r.1, ⟨false, some (HostError.DispError r.2.1 "CreateInstance" r.2.2.1), none⟩)
  else
    let ptr := DispInfo.make r.1.nextInfo r.2.2.2 r.2.2.1 options none
    let s1 := r.1
    ({ s1 with
        nodes := s1.nodes ++ [DispObject.init env ptr r.2.2.1 DISPID_UNKNOWN (-1) 0],
        nextInfo := s1.nextInfo + 1 },
      ⟨true, none, some (HostValue.node s1.nodes.length)⟩)

/-- The function `DispObject::NodeCreate(args)`, the constructor callback. Invoked as
a plain function it calls `cons->NewInstance(context, 1, argv)` with
`argv = { args[0] }`, which re-enters the callback as a constructor call on that
single argument; `ToLocalChecked` aborts the process when that construction threw. -/
def NodeCreate (env : Env) (s : State) (args : List HostValue) (IsConstructCall : Bool) :
    State × CallbackResult :=
  if args.length < 1 then (s, ⟨false, some HostError.InvalidArgumentsError, none⟩)
  else
    let options := NodeCreate.options env args
    -- Invoked as plain function
    if !IsConstructCall then
      if !s.clazz_template then
        (s, ⟨false, some (HostError.TypeError "FunctionTemplateIsEmpty"), none⟩)
      else
        let argv := [args.getD 0 HostValue.undefined]
        let c := NodeCreate.construct env s argv (NodeCreate.options env argv)
        match c.2.exception with
        | some _ => (c.1, ⟨false, some (HostError.Fatal "v8::ToLocalChecked"), none⟩)
        | none => (c.1, ⟨true, none, c.2.retval⟩)
    else NodeCreate.construct env s args options

/-- The generic-member branch of `DispObject::NodeGet` (a name that is none of the
reserved ones): unwrap `this`, then `self->get(id, -1, args)`. -/
def NodeGetMember (env : Env) (s : State) (this : HostValue) (name : String) :
    State × CallbackResult :=
  match Unwrap s this with
  | Unwrapped.abort => (s, unwrapAborted)
  | Unwrapped.null => (s, ⟨false, some HostError.DispErrorInvalid, none⟩)
  | Unwrapped.found n self =>
      let r := self.get env n s (some name) (-1)
      ({ r.2.1 with nodes := r.2.1.nodes.set n r.1 }, r.2.2)

/-- The function `DispObject::NodeGetByIndex`; the `uint32_t` index is narrowed to the
`LONG` parameter of `get`. -/
def NodeGetByIndex (env : Env) (s : State) (this : HostValue) (index : Nat) :
    State × CallbackResult :=
  match Unwrap s this with
  | Unwrapped.abort => (s, unwrapAborted)
  | Unwrapped.null => (s, ⟨false, some HostError.DispErrorInvalid, none⟩)
  | Unwrapped.found n self =>
      let r := self.get env n s none (toLONG index)
      ({ r.2.1 with nodes := r.2.1.nodes.set n r.1 }, r.2.2)

/-- The function `DispObject::NodeSet`. -/
def NodeSet (env : Env) (s : State) (this : HostValue) (name : String) (value : HostValue) :
    State × CallbackResult :=
  match Unwrap s this with
  | Unwrapped.abort => (s, unwrapAborted)
  | Unwrapped.null => (s, ⟨false, some HostError.DispErrorInvalid, none⟩)
  | Unwrapped.found n self =>
      let r := self.set env n s (some name) (-1) value
      ({ r.2.1 with nodes := r.2.1.nodes.set n r.1 }, r.2.2)

/-- The function `DispObject::NodeSetByIndex`; the `uint32_t` index is narrowed to the
`LONG` parameter of `set`. -/
def NodeSetByIndex (env : Env) (s : State) (this : HostValue) (index : Nat)
    (value : HostValue) : State × CallbackResult :=
  match Unwrap s this with
  | Unwrapped.abort => (s, unwrapAborted)
  | Unwrapped.null => (s, ⟨false, some HostError.DispErrorInvalid, none⟩)
  | Unwrapped.found n self =>
      let r := self.set env n s none (toLONG index) value
      ({ r.2.1 with nodes := r.2.1.nodes.set n r.1 }, r.2.2)

/-- The function `DispObject::NodeCall`. -/
def NodeCall (env : Env) (s : State) (this : HostValue) (args : List HostValue) :
    State × CallbackResult :=
  match Unwrap s this with
  | Unwrapped.abort => (s, unwrapAborted)
  | Unwrapped.null => (s, ⟨false, some HostError.DispErrorInvalid, none⟩)
  | Unwrapped.found _ self => self.call env s args

/-- The function `DispObject::NodeValueOf`. -/
def NodeValueOf (env : Env) (s : State) (this : HostValue) : State × CallbackResult :=
  match Unwrap s this with
  | Unwrapped.abort => (s, unwrapAborted)
  | Unwrapped.null => (s, ⟨false, some HostError.DispErrorInvalid, none⟩)
  | Unwrapped.found n self =>
      let r := self.valueOf env n s
      let s1 := { r.2.1 with nodes := r.2.1.nodes.set n r.1 }
      if FAILED r.2.2.1 then
        (s1, ⟨false, some (HostError.Win32Error r.2.2.1 "DispValueOf"), none⟩)
      else (s1, ⟨true, none, r.2.2.2⟩)

/-- The function `DispObject::NodeToString`. -/
def NodeToString (env : Env) (s : State) (this : HostValue) : State × CallbackResult :=
  match Unwrap s this with
  | Unwrapped.abort => (s, unwrapAborted)
  | Unwrapped.null => (s, ⟨false, some HostError.DispErrorInvalid, none⟩)
  | Unwrapped.found n self =>
      let r := self.toString env n s
      ({ r.2.1 with nodes := r.2.1.nodes.set n r.1 }, r.2.2)

/-- The loop of `DispObject::NodeRelease` over the remaining arguments, with the
running count `rcnt`. Every argument that is an object goes to `Unwrap` unguarded;
the result is `none` when the process aborted there, before any count was
returned. -/
def NodeRelease.loop : State → Nat → List HostValue → State × Option Nat
  | s, rcnt, [] => (s, some rcnt)
  | s, rcnt, obj :: rest =>
      if obj.IsObject then
        match Unwrap s obj with
        | Unwrapped.abort => (s, none)
        | Unwrapped.found id disp =>
            NodeRelease.loop { s with nodes := s.nodes.set id disp.release.1 }
              (if disp.release.2 then rcnt + 1 else rcnt) rest
        | Unwrapped.null => NodeRelease.loop s rcnt rest
      else NodeRelease.loop s rcnt rest

/-- The function `DispObject::NodeRelease(args)`: the state afterwards and the returned
count, `none` when the process aborted in `Unwrap`. -/
def NodeRelease (s : State) (args : List HostValue) : State × Option Nat :=
  NodeRelease.loop s 0 args

/-- Whether node `id` of the heap holds a DispatchInfo. -/
def State.holds (s : State) (id : NodeId) : Bool :=
  match s.nodes[id]? with
  | some nd => nd.disp.isSome
  | none => false

/-- The wrapper nodes of the heap that occur among the arguments and hold a
DispatchInfo; a node that occurs several times is one element. -/
def heldNodes (s : State) (args : List HostValue) : Finset NodeId :=
  (Finset.range s.nodes.length).filter
    (fun id => s.holds id = true ∧ HostValue.node id ∈ args)

/-- The operations on a node: the five that open with `if (!is_prepared()) prepare();`
(`get`, `set`, both `valueOf`, and `toString`, which goes through `valueOf`), and
`call` and `release`, which do not prepare. -/
inductive NodeOp where
  | get (tag : Option String) (index : Int)
  | set (tag : Option String) (index : Int) (value : HostValue)
  | valueOf
  | valueOfVariant
  | toString
  | call (args : List HostValue)
  | release
  deriving DecidableEq, Repr

/-- Whether the operation prepares its receiver first. -/
def NodeOp.prepares : NodeOp → Bool
  | NodeOp.call _ => false
  | NodeOp.release => false
  | _ => true

/-- One operation on node `n` of the heap: the member function runs on the node's
fields and the receiver is stored back. A missing node leaves the heap as it is. -/
def NodeOp.run (env : Env) (n : NodeId) (s : State) (op : NodeOp) : State :=
  match s.nodes[n]? with
  | none => s
  | some self =>
      match op with
      | NodeOp.get tag index =>
          { (self.get env n s tag index).2.1 with
            nodes := (self.get env n s tag index).2.1.nodes.set n (self.get env n s tag index).1 }
      | NodeOp.set tag index value =>
          { (self.set env n s tag index value).2.1 with
            nodes := (self.set env n s tag index value).2.1.nodes.set n
              (self.set env n s tag index value).1 }
      | NodeOp.valueOf =>
          { (self.valueOf env n s).2.1 with
            nodes := (self.valueOf env n s).2.1.nodes.set n (self.valueOf env n s).1 }
      | NodeOp.valueOfVariant =>
          { (self.valueOfVariant env n s).2.1 with
            nodes := (self.valueOfVariant env n s).2.1.nodes.set n
              (self.valueOfVariant env n s).1 }
      | NodeOp.toString =>
          { (self.toString env n s).2.1 with
            nodes := (self.toString env n s).2.1.nodes.set n (self.toString env n s).1 }
      | NodeOp.call args => (self.call env s args).1
      | NodeOp.release => { s with nodes := s.nodes.set n self.release.1 }

/-- A sequence of operations on node `n`, one after the other. -/
def runOps (env : Env) (n : NodeId) (s : State) (ops : List NodeOp) : State :=
  ops.foldl (NodeOp.run env n) s

/-- How often the preparing property-get of `DispObject::prepare` was issued for
node `n`. -/
def prepareCount (n : NodeId) (trace : List Event) : Nat :=
  trace.countP (fun e => match e with
    | Event.prepareGet m _ _ _ => m == n
    | _ => false)

/-! ## A concrete native world

Used to evaluate the embedding on explicit inputs. The flags are distinct single
bits with the inheritance mask over the low byte; one Automation class `Demo.App`
whose interfaces all expose the same members. -/

/-- The result code `DISP_E_UNKNOWNNAME` = 0x80020006 as a signed 32-bit value. -/
def DISP_E_UNKNOWNNAME : HRESULT := -2147352570
/-- The result code `DISP_E_MEMBERNOTFOUND` = 0x80020003 as a signed 32-bit value. -/
def DISP_E_MEMBERNOTFOUND : HRESULT := -2147352573
/-- The result code `DISP_E_BADPARAMCOUNT` = 0x8002000E as a signed 32-bit value. -/
def DISP_E_BADPARAMCOUNT : HRESULT := -2147352562

/-- Member ids of the demo interface: `Visible` (5) and `Broken` (6) are parameterless
property getters, `Item` (7) is a property taking two parameters, `Quit` (8) and
`Documents` (11) are methods, `Child` (9) is a parameterless property getter. -/
def demoFindProperty (tag : String) : HRESULT × DISPID :=
  if tag = "Visible" then (S_OK, 5)
  else if tag = "Broken" then (S_OK, 6)
  else if tag = "Item" then (S_OK, 7)
  else if tag = "Quit" then (S_OK, 8)
  else if tag = "Child" then (S_OK, 9)
  else if tag = "Documents" then (S_OK, 11)
  else (DISP_E_UNKNOWNNAME, DISPID_UNKNOWN)

/-- Descriptors of the demo members (`INVOKE_FUNC` = 1, `INVOKE_PROPERTYGET` = 2). -/
def demoGetTypeInfo (dispid : DISPID) : Option TypeDesc :=
  if dispid = 5 ∨ dispid = 6 ∨ dispid = 9 then some ⟨2, 0⟩
  else if dispid = 7 then some ⟨2, 2⟩
  else if dispid = 8 ∨ dispid = 11 then some ⟨1, 0⟩
  else none

/-- Property gets of the demo interface with explicit arguments: `Visible` is true,
`Child` is another object, the default member answers the key `x` with 1, every
other get fails. -/
def demoGetProperty (dispid : DISPID) (args : List Variant) : HRESULT × Variant :=
  if dispid = 5 then (S_OK, Variant.bool true)
  else if dispid = 6 then (E_FAIL, Variant.empty)
  else if dispid = 9 then (S_OK, Variant.dispatch 2)
  else if dispid = 7 then (DISP_E_BADPARAMCOUNT, Variant.empty)
  else if dispid = 0 ∧ args = [Variant.str "x"] then (S_OK, Variant.int 1)
  else (DISP_E_MEMBERNOTFOUND, Variant.empty)

/-- Property gets of the demo interface by index: `Documents` yields an object, the
other members accessed this way fail. -/
def demoGetPropertyIndex (dispid : DISPID) : HRESULT × Variant :=
  if dispid = 11 then (S_OK, Variant.dispatch 3)
  else if dispid = 7 then (DISP_E_BADPARAMCOUNT, Variant.empty)
  else (DISP_E_MEMBERNOTFOUND, Variant.empty)

/-- The host value of a variant in the demo world; the empty variant is undefined. -/
def demoVariant2Value : Variant → HostValue
  | Variant.null => HostValue.null
  | Variant.bool b => HostValue.bool b
  | Variant.int i => HostValue.int i
  | Variant.str s => HostValue.str s
  | _ => HostValue.undefined

/-- The string form of a variant in the demo world. -/
def demoVariant2String : Variant → HostValue
  | Variant.str s => HostValue.str s
  | Variant.bool b => HostValue.str (if b then "true" else "false")
  | _ => HostValue.str ""

/-- The argument list of the demo world: converted values in reversed order. -/
def demoVarArguments : List HostValue → List Variant
  | [] => []
  | v :: rest =>
      demoVarArguments rest ++ [match v with
        | HostValue.bool b => Variant.bool b
        | HostValue.int i => Variant.int i
        | HostValue.str s => Variant.str s
        | HostValue.null => Variant.null
        | _ => Variant.empty]

/-- The demo world. -/
def demoEnv : Env where
  option_async := 0x0001
  option_type := 0x0002
  option_activate := 0x0004
  option_prepared := 0x0100
  option_owned := 0x0200
  option_property := 0x0400
  option_mask := 0x00FF
  FindProperty := fun _ _ tag => demoFindProperty tag
  GetTypeInfo := fun _ _ dispid => demoGetTypeInfo dispid
  GetPropertyIndex := fun _ _ dispid _ => demoGetPropertyIndex dispid
  GetProperty := fun _ _ dispid args => demoGetProperty dispid args
  SetProperty := fun _ _ dispid _ =>
    if dispid = 5 then (S_OK, Variant.empty) else (DISP_E_MEMBERNOTFOUND, Variant.empty)
  ExecuteMethod := fun _ _ dispid _ =>
    if dispid = 8 then (S_OK, Variant.empty) else (DISP_E_MEMBERNOTFOUND, Variant.empty)
  is_property := fun d => d.invkind &&& 1 == 0
  is_property_simple := fun d => d.invkind &&& 1 == 0 && d.invkind &&& 2 != 0 && d.cParams ≤ 1
  Variant2Value := demoVariant2Value
  Variant2String := demoVariant2String
  VarArguments := demoVarArguments
  v8val2bool := fun v d => match v with
    | Prim.bool b => b
    | _ => d
  CLSIDFromProgID := fun name =>
    if name = "Demo.App" then (S_OK, 42) else (DISP_E_UNKNOWNNAME, 0)
  GetActiveObject := fun _ _ => (E_FAIL, 0)
  CoCreateInstance := fun _ clsid => if clsid = 42 then (S_OK, 1) else (E_FAIL, 0)
  DispObjectImpl := fun _ => 7

/-- The module right after `NodeInit`: no node yet. -/
def demoInit : State :=
  NodeInit { nodes := [], nextInfo := 0, trace := [], inst_template := false,
             clazz_template := false }

/-- The heap after `new Object("Demo.App")`: the root node is node 0. -/
def demoRoot : State :=
  (NodeCreate demoEnv demoInit [HostValue.str "Demo.App"] true).1

/-- The root node of `demoRoot`. -/
def demoRootNode : DispObject :=
  { disp := some (DispInfo.root 0 1 "Demo.App" 3), options := 0x103, name := "Demo.App",
    dispid := DISPID_VALUE, index := -1 }

/-- The `DispInfo` of the root node of `demoRoot`. -/
def demoRootInfo : DispInfo := DispInfo.root 0 1 "Demo.App" 3

/-- The heap after reading `root.Quit`: node 1 is the method-style wrapper of `Quit`. -/
def demoQuit : State :=
  (NodeGetMember demoEnv demoRoot (HostValue.node 0) "Quit").1

/-- The wrapper of `root.Quit`: it shares the root DispatchInfo and is not prepared. -/
def demoQuitNode : DispObject :=
  { disp := some demoRootInfo, options := 0x203, name := "Quit", dispid := 8, index := -1 }

/-- The heap after reading `root.Item`: node 1 is the wrapper of the two-parameter
property `Item`. -/
def demoItem : State :=
  (NodeGetMember demoEnv demoRoot (HostValue.node 0) "Item").1

/-- The wrapper of `root.Item`: flagged treat-as-property, member id 7, not prepared. -/
def demoItemNode : DispObject :=
  { disp := some demoRootInfo, options := 0x603, name := "Item", dispid := 7, index := -1 }

/-- The heap after reading `root.Child`: node 1 wraps the object the property returned. -/
def demoChild : State :=
  (NodeGetMember demoEnv demoRoot (HostValue.node 0) "Child").1

/-- The `DispInfo` of the object returned by `root.Child`. -/
def demoChildInfo : DispInfo := DispInfo.child 1 2 "Child" 0x103 demoRootInfo

/-- The wrapper of `root.Child`: flagged treat-as-property, default member, prepared. -/
def demoChildNode : DispObject :=
  { disp := some demoChildInfo, options := 0x503, name := "Child", dispid := DISPID_VALUE,
    index := -1 }

/-- The arguments `("Demo.App", { activate: true })` of the factory. -/
def demoActivateArgs : List HostValue :=
  [HostValue.str "Demo.App", HostValue.object [("activate", Prim.bool true)]]

/-- The heap after `release(root.Quit)`: node 1 holds no DispatchInfo any more. -/
def demoQuitReleased : State :=
  (NodeRelease demoQuit [HostValue.node 1]).1

/-- The released wrapper of `root.Quit`: never prepared, no DispatchInfo. -/
def demoQuitNodeReleased : DispObject :=
  { disp := none, options := 0x203, name := "Quit", dispid := 8, index := -1 }

/-- The assumption on the flag values of `disp.h`: the prepared and the property
flag are non-zero, they differ from each other and from the owned flag bit by bit,
and the inheritance mask `option_mask` lets none of the two through. -/
def Env.flags_ok (env : Env) : Prop :=
  env.option_prepared ≠ 0 ∧ env.option_property ≠ 0 ∧
  env.option_prepared &&& env.option_property = 0 ∧
  env.option_mask &&& env.option_prepared = 0 ∧
  env.option_mask &&& env.option_property = 0 ∧
  env.option_owned &&& env.option_prepared = 0 ∧
  env.option_owned &&& env.option_property = 0

instance Env.decidable_flags_ok (env : Env) : Decidable env.flags_ok := by
  unfold Env.flags_ok
  infer_instance

/-! ## Theorems -/

/-! ### Bit arithmetic of the option flags -/

theorem or_and_self_flag (x p : Nat) : (x ||| p) &&& p = p := by
  apply Nat.eq_of_testBit_eq
  intro i
  simp only [Nat.testBit_and, Nat.testBit_or]
  cases x.testBit i <;> cases p.testBit i <;> rfl

theorem or_and_distrib_flag (x y z : Nat) : (x ||| y) &&& z = (x &&& z) ||| (y &&& z) := by
  apply Nat.eq_of_testBit_eq
  intro i
  simp only [Nat.testBit_and, Nat.testBit_or]
  cases x.testBit i <;> cases y.testBit i <;> cases z.testBit i <;> rfl

theorem and_or_ne_zero_flag (x q p : Nat) (h : x &&& p ≠ 0) : (x ||| q) &&& p ≠ 0 := by
  obtain ⟨i, hi⟩ := Nat.ne_zero_implies_bit_true h
  intro h0
  have h1 : ((x ||| q) &&& p).testBit i = true := by
    simp only [Nat.testBit_and, Nat.testBit_or] at hi ⊢
    cases hx : x.testBit i <;> cases hp : p.testBit i <;> simp_all
  rw [h0] at h1
  simp at h1

/-! ### Preparation -/

theorem prepare_options (env : Env) (n : NodeId) (self : DispObject) (s : State) :
    (self.prepare env n s).1.options = self.options ||| env.option_prepared := by
  unfold DispObject.prepare
  simp only []
  split <;> rfl

theorem is_prepared_prepare (env : Env) (hp : env.option_prepared ≠ 0) (n : NodeId)
    (self : DispObject) (s : State) :
    (self.prepare env n s).1.is_prepared env = true := by
  simp [DispObject.is_prepared, prepare_options, or_and_self_flag, hp]

theorem is_prepared_ensure (env : Env) (hp : env.option_prepared ≠ 0) (n : NodeId)
    (self : DispObject) (s : State) :
    (self.ensure_prepared env n s).1.is_prepared env = true := by
  unfold DispObject.ensure_prepared
  split
  · assumption
  · exact is_prepared_prepare env hp n self s

theorem ensure_prepared_of_prepared (env : Env) (n : NodeId) (self : DispObject) (s : State)
    (h : self.is_prepared env = true) : self.ensure_prepared env n s = (self, s) := by
  simp [DispObject.ensure_prepared, h]

theorem ensure_nodes (env : Env) (n : NodeId) (self : DispObject) (s : State) :
    (self.ensure_prepared env n s).2.nodes = s.nodes := by
  unfold DispObject.ensure_prepared DispObject.prepare
  simp only []
  repeat' split
  all_goals rfl

theorem ensure_templates (env : Env) (n : NodeId) (self : DispObject) (s : State) :
    (self.ensure_prepared env n s).2.inst_template = s.inst_template := by
  unfold DispObject.ensure_prepared DispObject.prepare
  simp only []
  repeat' split
  all_goals rfl

theorem ensure_trace_unprepared (env : Env) (n : NodeId) (self : DispObject) (s : State)
    (d0 : DispInfo) (hd0 : self.disp = some d0) (h : self.is_prepared env = false) :
    (self.ensure_prepared env n s).2.trace =
      s.trace ++ [Event.prepareGet n d0.ptr self.dispid self.index] := by
  unfold DispObject.ensure_prepared DispObject.prepare
  simp only [h, hd0, Bool.false_eq_true, if_false]
  split <;> rfl

theorem ensure_disp_isSome (env : Env) (n : NodeId) (self : DispObject) (s : State) :
    (self.ensure_prepared env n s).1.disp.isSome = self.disp.isSome := by
  unfold DispObject.ensure_prepared DispObject.prepare
  cases hd : self.disp <;> simp only [] <;> repeat' split
  all_goals simp_all [VariantDispGet]

theorem lookup_failed (r : HRESULT × DISPID)
    (h : FAILED r.1 = true ∨ r.2 = DISPID_UNKNOWN) :
    FAILED (if (SUCCEEDED r.1 && r.2 == DISPID_UNKNOWN) = true then E_INVALIDARG else r.1)
      = true := by
  rcases h with h | h
  · have : SUCCEEDED r.1 = false := by
      simp only [FAILED, SUCCEEDED, decide_eq_true_eq, decide_eq_false_iff_not, not_le] at h ⊢
      exact h
    simp [this, h]
  · by_cases hs : SUCCEEDED r.1 = true
    · simp [hs, h, FAILED, E_INVALIDARG]
    · have hf : FAILED r.1 = true := by
        simp only [FAILED, SUCCEEDED, decide_eq_true_eq, not_le] at hs ⊢
        exact hs
      simp [hs, hf]

theorem ensure_options (env : Env) (n : NodeId) (self : DispObject) (s : State) :
    (self.ensure_prepared env n s).1.options = self.options ∨
    (self.ensure_prepared env n s).1.options = self.options ||| env.option_prepared := by
  unfold DispObject.ensure_prepared
  split
  · exact Or.inl rfl
  · exact Or.inr (prepare_options env n self s)

theorem ensure_not_flagged (env : Env) (n : NodeId) (self : DispObject) (s : State)
    (hbits : env.option_prepared &&& env.option_property = 0)
    (hflag : self.options &&& env.option_property = 0) :
    (self.ensure_prepared env n s).1.options &&& env.option_property = 0 := by
  rcases ensure_options env n self s with h | h
  · rw [h]; exact hflag
  · rw [h, or_and_distrib_flag, hflag, hbits]; rfl

theorem ensure_trace_cases (env : Env) (n : NodeId) (self : DispObject) (s : State) :
    (self.ensure_prepared env n s).2.trace = s.trace ∨
    ∃ d0, self.disp = some d0 ∧
      (self.ensure_prepared env n s).2.trace =
        s.trace ++ [Event.prepareGet n d0.ptr self.dispid self.index] := by
  cases hp : self.is_prepared env
  · cases hd : self.disp with
    | none =>
        left
        unfold DispObject.ensure_prepared DispObject.prepare
        simp only [hp, hd, Bool.false_eq_true, if_false]
        split <;> rfl
    | some d0 => exact Or.inr ⟨d0, rfl, ensure_trace_unprepared env n self s d0 hd hp⟩
  · left; rw [ensure_prepared_of_prepared env n self s hp]

theorem lookup_ok (r : HRESULT × DISPID) (h : SUCCEEDED r.1 = true)
    (hid : r.2 ≠ DISPID_UNKNOWN) :
    FAILED (if SUCCEEDED r.1 = true ∧ r.2 = DISPID_UNKNOWN then E_INVALIDARG else r.1)
      = false := by
  simp only [hid, and_false, if_false]
  simp only [FAILED, SUCCEEDED, decide_eq_true_eq, decide_eq_false_iff_not, not_lt] at h ⊢
  exact h

theorem and_mask_flag (x m p : Nat) (h : m &&& p = 0) : (x &&& m) &&& p = 0 := by
  rw [Nat.and_assoc, h]; exact Nat.and_zero x

theorem get_found_fst (env : Env) (self : DispObject) (s : State) (disp : DispInfo)
    (tag : String) (propid : DISPID) (pbk : Bool) (index : Int) :
    (self.get_found env s disp tag propid pbk index).1 = self := by
  unfold DispObject.get_found
  simp only []
  repeat' split
  all_goals rfl

theorem get_fst (env : Env) (n : NodeId) (self : DispObject) (s : State) (tag : Option String)
    (index : Int) : (self.get env n s tag index).1 = (self.ensure_prepared env n s).1 := by
  unfold DispObject.get
  simp only []
  repeat' split
  all_goals first
    | rfl
    | exact get_found_fst _ _ _ _ _ _ _ _

/-- C4 (amended): on a node that holds a DispatchInfo and is not flagged
treat-as-property-by-key, a named get of a name whose lookup fails or yields the
unknown id sets the result to undefined, raises nothing, creates no wrapper node, and
issues no native call besides the name lookup and, when the node was not yet
prepared, the one preparing property-get of the node itself. -/
theorem get_unresolved_undefined (env : Env) (n : NodeId) (self : DispObject) (s : State)
    (tag : String) (index : Int) (d : DispInfo)
    (hbits : env.option_prepared &&& env.option_property = 0)
    (hd : (self.ensure_prepared env n s).1.disp = some d)
    (hflag : self.options &&& env.option_property = 0)
    (hfail : FAILED (env.FindProperty (self.ensure_prepared env n s).2.trace d tag).1 = true ∨
      (env.FindProperty (self.ensure_prepared env n s).2.trace d tag).2 = DISPID_UNKNOWN) :
    (self.get env n s (some tag) index).2.2 = ⟨false, none, some HostValue.undefined⟩ ∧
    (self.get env n s (some tag) index).2.1.nodes = s.nodes ∧
    (self.get env n s (some tag) index).2.1.trace =
      (self.ensure_prepared env n s).2.trace ++ [Event.FindProperty d.ptr tag] ∧
    (self.is_prepared env = true → (self.ensure_prepared env n s).2.trace = s.trace) ∧
    (self.is_prepared env = false → ∀ d0, self.disp = some d0 →
      (self.ensure_prepared env n s).2.trace =
        s.trace ++ [Event.prepareGet n d0.ptr self.dispid self.index]) := by
  have hflag1 := ensure_not_flagged env n self s hbits hflag
  have hnodes := ensure_nodes env n self s
  have hlook := lookup_failed _ hfail
  simp only [Bool.and_eq_true, beq_iff_eq] at hlook
  refine ⟨?_, ?_, ?_, ?_, ?_⟩
  · unfold DispObject.get DispObject.get_found
    simp [hd, hlook, hflag1]
  · unfold DispObject.get DispObject.get_found
    simp [hd, hlook, hflag1, hnodes]
  · unfold DispObject.get DispObject.get_found
    simp [hd, hlook, hflag1]
  · intro hp
    rw [ensure_prepared_of_prepared env n self s hp]
  · intro hp d0 hd0
    exact ensure_trace_unprepared env n self s d0 hd0 hp

/-- Witness for C4 (amended): `root.Quit.foo` is undefined and creates no node. -/
theorem get_unresolved_undefined_witness :
    (demoQuitNode.get demoEnv 1 demoQuit (some "foo") (-1)).2.2 =
      ⟨false, none, some HostValue.undefined⟩ ∧
    (demoQuitNode.get demoEnv 1 demoQuit (some "foo") (-1)).2.1.nodes = demoQuit.nodes :=
  ⟨(get_unresolved_undefined demoEnv 1 demoQuitNode demoQuit "foo" (-1) demoRootInfo
      (by decide) (by decide) (by decide) (by decide)).1,
    (get_unresolved_undefined demoEnv 1 demoQuitNode demoQuit "foo" (-1) demoRootInfo
      (by decide) (by decide) (by decide) (by decide)).2.1⟩

/-- C4 fails as stated: the wrapper of `root.Quit` holds a DispatchInfo, is not flagged
treat-as-property-by-key and was never prepared; a get of the unresolvable name `foo`
on it first runs `prepare`, which issues a property-get of member 8 on the
interface. -/
theorem get_unresolved_prepares_first :
    demoQuit.nodes[1]? = some demoQuitNode ∧
    demoQuitNode.disp = some demoRootInfo ∧
    demoQuitNode.options &&& demoEnv.option_property = 0 ∧
    demoEnv.FindProperty (demoQuit.trace ++ [Event.prepareGet 1 1 8 (-1)]) demoRootInfo "foo"
      = (DISP_E_UNKNOWNNAME, DISPID_UNKNOWN) ∧
    (demoQuitNode.get demoEnv 1 demoQuit (some "foo") (-1)).2.1.trace =
      demoQuit.trace ++ [Event.prepareGet 1 1 8 (-1), Event.FindProperty 1 "foo"] ∧
    Event.prepareGet 1 1 8 (-1) ∉ demoQuit.trace := by
  decide

/-- C5: on a node that holds a DispatchInfo, flagged or not, a named set of a name
whose lookup fails or yields the unknown id raises the error of operation
DispPropertyFind with the member name and a failure code, and issues no property-put
invocation. -/
theorem set_unresolved_raises (env : Env) (n : NodeId) (self : DispObject) (s : State)
    (tag : String) (index : Int) (value : HostValue) (d : DispInfo)
    (hd : (self.ensure_prepared env n s).1.disp = some d)
    (hfail : FAILED (env.FindProperty (self.ensure_prepared env n s).2.trace d tag).1 = true ∨
      (env.FindProperty (self.ensure_prepared env n s).2.trace d tag).2 = DISPID_UNKNOWN) :
    (∃ hrcode, FAILED hrcode = true ∧
      (self.set env n s (some tag) index value).2.2 =
        ⟨false, some (HostError.DispError hrcode "DispPropertyFind" tag), none⟩) ∧
    (self.set env n s (some tag) index value).2.1.nodes = s.nodes ∧
    (∀ p i a, Event.SetProperty p i a ∈ (self.set env n s (some tag) index value).2.1.trace →
      Event.SetProperty p i a ∈ s.trace) := by
  have hnodes := ensure_nodes env n self s
  have hlook := lookup_failed _ hfail
  simp only [Bool.and_eq_true, beq_iff_eq] at hlook
  refine ⟨⟨_, lookup_failed _ hfail, ?_⟩, ?_, ?_⟩
  · unfold DispObject.set
    simp [hd, hlook]
  · unfold DispObject.set
    simp [hd, hlook, hnodes]
  · intro p i a hmem
    have htr : (self.set env n s (some tag) index value).2.1.trace =
        (self.ensure_prepared env n s).2.trace ++ [Event.FindProperty d.ptr tag] := by
      unfold DispObject.set
      simp [hd, hlook]
    rw [htr] at hmem
    rcases ensure_trace_cases env n self s with h | ⟨d0, _, h⟩
    · rw [h] at hmem
      simpa using hmem
    · rw [h] at hmem
      simpa using hmem

/-- C2 (amended): when a named get resolves the name to a simple property and the
property-get invocation fails, `get` raises the DispPropertyGet error with the member
name and the native code exactly when the member id of the node itself (after its
preparation) is not the default member; on a node whose own member id is the default
member the failure is swallowed, whatever member was read. -/
theorem get_simple_failure (env : Env) (n : NodeId) (self : DispObject) (s : State)
    (tag : String) (index : Int) (d : DispInfo) (di : TypeDesc)
    (hd : (self.ensure_prepared env n s).1.disp = some d)
    (hres : SUCCEEDED (env.FindProperty (self.ensure_prepared env n s).2.trace d tag).1 = true)
    (hid : (env.FindProperty (self.ensure_prepared env n s).2.trace d tag).2 ≠ DISPID_UNKNOWN)
    (hti : env.GetTypeInfo
        ((self.ensure_prepared env n s).2.trace ++ [Event.FindProperty d.ptr tag]) d
        (env.FindProperty (self.ensure_prepared env n s).2.trace d tag).2 = some di)
    (hsimple : env.is_property_simple di = true)
    (hfail : FAILED (env.GetProperty
        ((self.ensure_prepared env n s).2.trace ++ [Event.FindProperty d.ptr tag]) d
        (env.FindProperty (self.ensure_prepared env n s).2.trace d tag).2
        (if 0 ≤ index then [Variant.int index] else [])).1 = true) :
    ((self.ensure_prepared env n s).1.dispid ≠ DISPID_VALUE →
      (self.get env n s (some tag) index).2.2 =
        ⟨false, some (HostError.DispError (env.GetProperty
          ((self.ensure_prepared env n s).2.trace ++ [Event.FindProperty d.ptr tag]) d
          (env.FindProperty (self.ensure_prepared env n s).2.trace d tag).2
          (if 0 ≤ index then [Variant.int index] else [])).1 "DispPropertyGet" tag), none⟩) ∧
    ((self.ensure_prepared env n s).1.dispid = DISPID_VALUE →
      (self.get env n s (some tag) index).2.2.exception = none ∧
      (self.get env n s (some tag) index).2.2.ok = true) := by
  have hlook := lookup_ok _ hres hid
  constructor
  · intro hne
    unfold DispObject.get DispObject.get_found
    simp [hd, hlook, hti, hsimple, hfail, hne]
  · intro heq
    unfold DispObject.get DispObject.get_found
    simp [hd, hlook, hti, hsimple, hfail, heq]
    constructor <;> split <;> rfl

/-- Witness for C2 (amended): reading `Broken` through the unprepared wrapper of
`root.Quit`, whose own member id is not the default member, raises. -/
theorem get_simple_failure_witness :
    (demoQuitNode.get demoEnv 1 demoQuit (some "Broken") (-1)).2.2 =
      ⟨false, some (HostError.DispError E_FAIL "DispPropertyGet" "Broken"), none⟩ :=
  (get_simple_failure demoEnv 1 demoQuitNode demoQuit "Broken" (-1) demoRootInfo ⟨2, 0⟩
    (by decide) (by decide) (by decide) (by decide) (by decide) (by decide)).1 (by decide)

/-- C2 fails as stated: on the root node of `Demo.App` the name `Broken` resolves to
member 6, which is not the default member and is a simple property; its property-get
fails with `E_FAIL`, yet `get` raises nothing and hands undefined to the host. -/
theorem get_failure_swallowed_on_root :
    demoRoot.nodes[0]? = some demoRootNode ∧
    demoRootNode.disp = some demoRootInfo ∧
    demoEnv.FindProperty demoRoot.trace demoRootInfo "Broken" = (S_OK, 6) ∧
    (6 : DISPID) ≠ DISPID_VALUE ∧
    (demoEnv.GetTypeInfo (demoRoot.trace ++ [Event.FindProperty 1 "Broken"]) demoRootInfo 6).map
      demoEnv.is_property_simple = some true ∧
    demoEnv.GetProperty (demoRoot.trace ++ [Event.FindProperty 1 "Broken"]) demoRootInfo 6 []
      = (E_FAIL, Variant.empty) ∧
    FAILED E_FAIL = true ∧
    (demoRootNode.get demoEnv 0 demoRoot (some "Broken") (-1)).2.2 =
      ⟨true, none, some HostValue.undefined⟩ := by
  decide

/-- C3 (amended): on a node that holds a DispatchInfo and is flagged
treat-as-property-by-key, a named get of a name the interface cannot resolve issues,
after the preparation of the node and the failed lookup, exactly one native call: the
keyed property-get on the member id the node has after its preparation (its own
member id when it was prepared already), with the name as key argument; `r` is the
answer to that call, and the preparation adds at most the one preparing get. The get
raises the DispPropertyGet error, with the member name and the native code, exactly
when the keyed call failed and that member id is not the default member. Otherwise it
raises nothing and returns the host conversion of the variant the call left, or a new
wrapper node when that variant holds a dispatch interface. -/
theorem get_by_key (env : Env) (n : NodeId) (self : DispObject) (s : State)
    (tag : String) (index : Int) (d : DispInfo) (r : HRESULT × Variant)
    (hd : (self.ensure_prepared env n s).1.disp = some d)
    (hflag : self.options &&& env.option_property ≠ 0)
    (hfail : FAILED (env.FindProperty (self.ensure_prepared env n s).2.trace d tag).1 = true ∨
      (env.FindProperty (self.ensure_prepared env n s).2.trace d tag).2 = DISPID_UNKNOWN)
    (hr : env.GetProperty
        ((self.ensure_prepared env n s).2.trace ++ [Event.FindProperty d.ptr tag]) d
        (self.ensure_prepared env n s).1.dispid
        ([Variant.str tag] ++ (if 0 ≤ index then [Variant.int index] else [])) = r) :
    (self.get env n s (some tag) index).2.1.trace =
      (self.ensure_prepared env n s).2.trace ++
        [Event.FindProperty d.ptr tag,
          Event.GetProperty d.ptr (self.ensure_prepared env n s).1.dispid
            ([Variant.str tag] ++ (if 0 ≤ index then [Variant.int index] else []))] ∧
    (self.is_prepared env = true → self.ensure_prepared env n s = (self, s)) ∧
    ((self.ensure_prepared env n s).2.trace = s.trace ∨
      ∃ d0, self.disp = some d0 ∧ (self.ensure_prepared env n s).2.trace =
        s.trace ++ [Event.prepareGet n d0.ptr self.dispid self.index]) ∧
    (FAILED r.1 = true ∧ (self.ensure_prepared env n s).1.dispid ≠ DISPID_VALUE →
      (self.get env n s (some tag) index).2.2 =
        ⟨false, some (HostError.DispError r.1 "DispPropertyGet" tag), none⟩ ∧
      (self.get env n s (some tag) index).2.1.nodes = s.nodes) ∧
    (FAILED r.1 = false ∨ (self.ensure_prepared env n s).1.dispid = DISPID_VALUE →
      (self.get env n s (some tag) index).2.2.exception = none ∧
      (VariantDispGet r.2 = none →
        (self.get env n s (some tag) index).2.2 =
          ⟨true, none, some (env.Variant2Value r.2)⟩ ∧
        (self.get env n s (some tag) index).2.1.nodes = s.nodes) ∧
      (∀ ptr, VariantDispGet r.2 = some ptr → s.inst_template = true →
        (self.get env n s (some tag) index).2.2 =
          ⟨true, none, some (HostValue.node s.nodes.length)⟩ ∧
        (self.get env n s (some tag) index).2.1.nodes =
          s.nodes ++ [DispObject.init env
            (DispInfo.make (self.ensure_prepared env n s).2.nextInfo ptr tag
              (self.ensure_prepared env n s).1.options (some d))
            tag DISPID_UNKNOWN (-1) (0 ||| env.option_property)])) := by
  have hlook := lookup_failed _ hfail
  simp only [Bool.and_eq_true, beq_iff_eq] at hlook
  have hflag1 : (self.ensure_prepared env n s).1.options &&& env.option_property ≠ 0 := by
    rcases ensure_options env n self s with h | h
    · rw [h]; exact hflag
    · rw [h]; exact and_or_ne_zero_flag _ _ _ hflag
  have hnodes := ensure_nodes env n self s
  have htm := ensure_templates env n self s
  have hget : self.get env n s (some tag) index =
      (self.ensure_prepared env n s).1.get_found env
        { (self.ensure_prepared env n s).2 with
          trace := (self.ensure_prepared env n s).2.trace ++ [Event.FindProperty d.ptr tag] }
        d tag (self.ensure_prepared env n s).1.dispid true index := by
    unfold DispObject.get
    simp [hd, hlook, hflag1]
  rw [hget]
  unfold DispObject.get_found
  generalize (if 0 ≤ index then [Variant.int index] else []) = ix at hr ⊢
  simp only [↓reduceIte]
  rw [hr]
  refine ⟨?_, ?_, ensure_trace_cases env n self s, ?_, ?_⟩
  · split
    · simp
    · split
      · simp only [NodeCreateObj]
        split <;> simp
      · simp
  · intro hp
    exact ensure_prepared_of_prepared env n self s hp
  · rintro ⟨hf, hne⟩
    simp [hf, hne, hnodes]
  · intro hno
    have hcond : (FAILED r.1 && (self.ensure_prepared env n s).1.dispid != DISPID_VALUE)
        = false := by
      rcases hno with h | h
      · simp [h]
      · simp [h]
    simp only [hcond, Bool.false_eq_true, if_false]
    refine ⟨?_, ?_, ?_⟩
    · split <;> rfl
    · intro hv
      simp [hv, hnodes]
    · intro ptr hv htmpl
      simp [hv, NodeCreateObj, htm, htmpl, hnodes]

/-- Witness for C3 (amended): on the wrapper of `root.Child` (flagged, default member)
the unresolvable name `nothing` makes the keyed get fail, and undefined is
returned. -/
theorem get_by_key_witness :
    (demoChildNode.get demoEnv 1 demoChild (some "nothing") (-1)).2.2 =
      ⟨true, none, some HostValue.undefined⟩ :=
  ((get_by_key demoEnv 1 demoChildNode demoChild "nothing" (-1) demoChildInfo
    (DISP_E_MEMBERNOTFOUND, Variant.empty)
    (by decide) (by decide) (by decide) (by decide)).2.2.2.2 (Or.inr (by decide))).2.1
    (by decide) |>.1

/-- C3 fails as stated, in two ways. `root.Item` is a flagged wrapper whose own member
id is 7: the name `foo` is unresolvable, the keyed get fails, and `get` raises. And
`root.Child` is a flagged wrapper on the default member: the name `x` is
unresolvable, the keyed get succeeds, and `get` returns 1, not undefined. -/
theorem get_by_key_raises_or_returns_value :
    (demoItem.nodes[1]? = some demoItemNode ∧
      demoItemNode.disp = some demoRootInfo ∧
      demoItemNode.options &&& demoEnv.option_property ≠ 0 ∧
      demoEnv.FindProperty (demoItem.trace ++ [Event.prepareGet 1 1 7 (-1)]) demoRootInfo "foo"
        = (DISP_E_UNKNOWNNAME, DISPID_UNKNOWN) ∧
      (NodeGetMember demoEnv demoItem (HostValue.node 1) "foo").2 =
        ⟨false, some (HostError.DispError DISP_E_BADPARAMCOUNT "DispPropertyGet" "foo"),
          none⟩) ∧
    (demoChild.nodes[1]? = some demoChildNode ∧
      demoChildNode.disp = some demoChildInfo ∧
      demoChildNode.options &&& demoEnv.option_property ≠ 0 ∧
      demoEnv.FindProperty demoChild.trace demoChildInfo "x"
        = (DISP_E_UNKNOWNNAME, DISPID_UNKNOWN) ∧
      (NodeGetMember demoEnv demoChild (HostValue.node 1) "x").2 =
        ⟨true, none, some (HostValue.int 1)⟩) := by
  decide

/-- Witness for C5: `root.Nope = 1` raises the DispPropertyFind error. -/
theorem set_unresolved_raises_witness :
    (∃ hrcode, FAILED hrcode = true ∧
      (demoRootNode.set demoEnv 0 demoRoot (some "Nope") (-1) (HostValue.int 1)).2.2 =
        ⟨false, some (HostError.DispError hrcode "DispPropertyFind" "Nope"), none⟩) :=
  (set_unresolved_raises demoEnv 0 demoRootNode demoRoot "Nope" (-1) (HostValue.int 1)
    demoRootInfo (by decide) (by decide)).1

theorem init_owned_not_prepared (env : Env) (hflags : env.flags_ok) (d : DispInfo)
    (tag : String) (propid : DISPID) (index : Int) (opt : Nat)
    (hid : propid ≠ DISPID_UNKNOWN) (hopt : opt &&& env.option_prepared = 0) :
    (DispObject.init env d tag propid index opt).is_prepared env = false := by
  obtain ⟨_, _, _, hmp, _, hop, _⟩ := hflags
  simp only [DispObject.init, hid, if_false, DispObject.is_prepared]
  rw [or_and_distrib_flag, or_and_distrib_flag, and_mask_flag _ _ _ hmp, hopt, hop]
  rfl

theorem init_owned_property (env : Env) (hflags : env.flags_ok) (d : DispInfo)
    (tag : String) (propid : DISPID) (index : Int) (opt : Nat)
    (hid : propid ≠ DISPID_UNKNOWN) :
    (DispObject.init env d tag propid index opt).options &&& env.option_property
      = opt &&& env.option_property := by
  obtain ⟨_, _, _, _, hmp, _, hop⟩ := hflags
  simp only [DispObject.init, hid, if_false]
  rw [or_and_distrib_flag, or_and_distrib_flag, and_mask_flag _ _ _ hmp, hop]
  simp

/-- C10 (amended): a named get of a name that resolves to a member which is not a
simple property returns a new wrapper node that shares the DispatchInfo of the
receiver, carries the resolved member id and the member name, is not prepared, and
carries the treat-as-property flag exactly when the member has a descriptor that is a
property; the only native call it issues after the preparation of the receiver is
the name lookup, so the member is not invoked on behalf of this get. -/
theorem get_not_simple_wrapper (env : Env) (hflags : env.flags_ok) (n : NodeId)
    (self : DispObject) (s : State) (tag : String) (index : Int) (d : DispInfo)
    (htmpl : s.inst_template = true)
    (hd : (self.ensure_prepared env n s).1.disp = some d)
    (hres : SUCCEEDED (env.FindProperty (self.ensure_prepared env n s).2.trace d tag).1 = true)
    (hid : (env.FindProperty (self.ensure_prepared env n s).2.trace d tag).2 ≠ DISPID_UNKNOWN)
    (hns : ∀ di, env.GetTypeInfo
        ((self.ensure_prepared env n s).2.trace ++ [Event.FindProperty d.ptr tag]) d
        (env.FindProperty (self.ensure_prepared env n s).2.trace d tag).2 = some di →
      env.is_property_simple di = false) :
    ∃ nd : DispObject,
      (self.get env n s (some tag) index).2.2 =
        ⟨true, none, some (HostValue.node s.nodes.length)⟩ ∧
      (self.get env n s (some tag) index).2.1.nodes = s.nodes ++ [nd] ∧
      (self.get env n s (some tag) index).1.disp = some d ∧
      nd.disp = some d ∧
      nd.dispid = (env.FindProperty (self.ensure_prepared env n s).2.trace d tag).2 ∧
      nd.name = tag ∧
      nd.is_prepared env = false ∧
      (nd.options &&& env.option_property ≠ 0 ↔
        ∃ di, env.GetTypeInfo
          ((self.ensure_prepared env n s).2.trace ++ [Event.FindProperty d.ptr tag]) d
          (env.FindProperty (self.ensure_prepared env n s).2.trace d tag).2 = some di ∧
          env.is_property di = true) ∧
      (self.get env n s (some tag) index).2.1.trace =
        (self.ensure_prepared env n s).2.trace ++ [Event.FindProperty d.ptr tag] := by
  have hlook := lookup_ok _ hres hid
  have hnodes := ensure_nodes env n self s
  have htm := ensure_templates env n self s
  have hfst := get_fst env n self s (some tag) index
  rw [htmpl] at htm
  obtain ⟨_, hprop, hpp, _, _, _, _⟩ := id hflags
  cases hti : env.GetTypeInfo
      ((self.ensure_prepared env n s).2.trace ++ [Event.FindProperty d.ptr tag]) d
      (env.FindProperty (self.ensure_prepared env n s).2.trace d tag).2 with
  | none =>
      refine ⟨DispObject.init env d tag
        (env.FindProperty (self.ensure_prepared env n s).2.trace d tag).2 index 0,
        ?_, ?_, ?_, ?_, ?_, ?_, ?_, ?_, ?_⟩
      · unfold DispObject.get DispObject.get_found
        simp [hd, hlook, hti, NodeCreateObj, htm, hnodes]
      · unfold DispObject.get DispObject.get_found
        simp [hd, hlook, hti, NodeCreateObj, htm, hnodes]
      · rw [hfst]; exact hd
      · simp [DispObject.init, hid]
      · simp [DispObject.init, hid]
      · simp [DispObject.init, hid]
      · exact init_owned_not_prepared env hflags d tag _ index 0 hid (Nat.zero_and _)
      · rw [init_owned_property env hflags d tag _ index 0 hid]
        simp
      · unfold DispObject.get DispObject.get_found
        simp [hd, hlook, hti, NodeCreateObj, htm]
  | some di =>
      have hsimple := hns di hti
      refine ⟨DispObject.init env d tag
        (env.FindProperty (self.ensure_prepared env n s).2.trace d tag).2 index
        (if env.is_property di = true then 0 ||| env.option_property else 0),
        ?_, ?_, ?_, ?_, ?_, ?_, ?_, ?_, ?_⟩
      · unfold DispObject.get DispObject.get_found
        simp [hd, hlook, hti, hsimple, NodeCreateObj, htm, hnodes]
      · unfold DispObject.get DispObject.get_found
        simp [hd, hlook, hti, hsimple, NodeCreateObj, htm, hnodes]
      · rw [hfst]; exact hd
      · simp [DispObject.init, hid]
      · simp [DispObject.init, hid]
      · simp [DispObject.init, hid]
      · apply init_owned_not_prepared env hflags d tag _ index _ hid
        split
        · rw [Nat.zero_or, Nat.and_comm]; exact hpp
        · exact Nat.zero_and _
      · rw [init_owned_property env hflags d tag _ index _ hid]
        cases hip : env.is_property di
        · simp [hip]
        · simp [hip, hprop]
      · unfold DispObject.get DispObject.get_found
        simp [hd, hlook, hti, hsimple, NodeCreateObj, htm]

/-- Witness for C10 (amended): `root.Quit` on the prepared root. -/
theorem get_not_simple_wrapper_witness :
    ∃ nd : DispObject,
      (demoRootNode.get demoEnv 0 demoRoot (some "Quit") (-1)).2.2 =
        ⟨true, none, some (HostValue.node demoRoot.nodes.length)⟩ ∧
      (demoRootNode.get demoEnv 0 demoRoot (some "Quit") (-1)).2.1.nodes =
        demoRoot.nodes ++ [nd] ∧
      (demoRootNode.get demoEnv 0 demoRoot (some "Quit") (-1)).1.disp = some demoRootInfo ∧
      nd.disp = some demoRootInfo ∧
      nd.dispid = (demoEnv.FindProperty
        (demoRootNode.ensure_prepared demoEnv 0 demoRoot).2.trace demoRootInfo "Quit").2 ∧
      nd.name = "Quit" ∧
      nd.is_prepared demoEnv = false ∧
      (nd.options &&& demoEnv.option_property ≠ 0 ↔
        ∃ di, demoEnv.GetTypeInfo
          ((demoRootNode.ensure_prepared demoEnv 0 demoRoot).2.trace ++
            [Event.FindProperty demoRootInfo.ptr "Quit"]) demoRootInfo
          (demoEnv.FindProperty
            (demoRootNode.ensure_prepared demoEnv 0 demoRoot).2.trace demoRootInfo "Quit").2
            = some di ∧
          demoEnv.is_property di = true) ∧
      (demoRootNode.get demoEnv 0 demoRoot (some "Quit") (-1)).2.1.trace =
        (demoRootNode.ensure_prepared demoEnv 0 demoRoot).2.trace ++
          [Event.FindProperty demoRootInfo.ptr "Quit"] :=
  get_not_simple_wrapper demoEnv (by decide) 0 demoRootNode demoRoot "Quit" (-1) demoRootInfo
    (by decide) (by decide) (by decide) (by decide) (by decide)

/-- C10 fails as stated: on the unprepared wrapper of `root.Quit` the name `Quit`
resolves to member 8, a method; the get returns a new wrapper, but before the lookup
it has run `prepare`, a native property-get of that very member 8 on the same
interface. -/
theorem get_wrapper_after_preparing_get :
    demoQuit.nodes[1]? = some demoQuitNode ∧
    demoQuitNode.disp = some demoRootInfo ∧
    demoEnv.FindProperty (demoQuit.trace ++ [Event.prepareGet 1 1 8 (-1)]) demoRootInfo "Quit"
      = (S_OK, 8) ∧
    (demoEnv.GetTypeInfo
      (demoQuit.trace ++ [Event.prepareGet 1 1 8 (-1), Event.FindProperty 1 "Quit"])
      demoRootInfo 8).map demoEnv.is_property_simple = some false ∧
    (demoQuitNode.get demoEnv 1 demoQuit (some "Quit") (-1)).2.2 =
      ⟨true, none, some (HostValue.node 2)⟩ ∧
    (demoQuitNode.get demoEnv 1 demoQuit (some "Quit") (-1)).2.1.trace =
      demoQuit.trace ++
        [Event.prepareGet 1 demoRootInfo.ptr 8 (-1), Event.FindProperty 1 "Quit"] ∧
    Event.prepareGet 1 demoRootInfo.ptr 8 (-1) ∉ demoQuit.trace := by
  decide

/-! ### Memoized preparation -/

theorem NodeCreateObj_trace (env : Env) (s : State) (ptr : DispInfo) (name : String)
    (id : DISPID) (index : Int) (opt : Nat) :
    (NodeCreateObj env s ptr name id index opt).1.trace = s.trace := by
  unfold NodeCreateObj
  split <;> rfl

theorem ensure_count (env : Env) (n : NodeId) (self : DispObject) (s : State) :
    prepareCount n (self.ensure_prepared env n s).2.trace ≤ prepareCount n s.trace + 1 := by
  rcases ensure_trace_cases env n self s with h | ⟨d0, _, h⟩
  · rw [h]; omega
  · rw [h]
    unfold prepareCount
    rw [List.countP_append]
    simp

theorem NodeCreateObj_length (env : Env) (s : State) (ptr : DispInfo) (name : String)
    (id : DISPID) (index : Int) (opt : Nat) (k : Nat) (h : k ≤ s.nodes.length) :
    k ≤ (NodeCreateObj env s ptr name id index opt).1.nodes.length := by
  unfold NodeCreateObj
  split
  · simp only [List.length_append, List.length_singleton]
    omega
  · exact h

theorem get_found_frame (env : Env) (n : NodeId) (self : DispObject) (s : State)
    (disp : DispInfo) (tag : String) (propid : DISPID) (pbk : Bool) (index : Int) :
    prepareCount n (self.get_found env s disp tag propid pbk index).2.1.trace =
      prepareCount n s.trace ∧
    s.nodes.length ≤ (self.get_found env s disp tag propid pbk index).2.1.nodes.length := by
  unfold DispObject.get_found
  simp only []
  generalize (if 0 ≤ index then [Variant.int index] else []) = ix
  generalize env.GetTypeInfo s.trace disp propid = ti
  generalize env.GetProperty s.trace disp propid = gp
  repeat' split
  all_goals
    simp [NodeCreateObj_trace, NodeCreateObj_length, prepareCount, List.countP_append,
      List.countP_cons]

theorem get_frame (env : Env) (n : NodeId) (self : DispObject) (s : State)
    (tag : Option String) (index : Int) :
    prepareCount n (self.get env n s tag index).2.1.trace =
      prepareCount n (self.ensure_prepared env n s).2.trace ∧
    (self.ensure_prepared env n s).2.nodes.length ≤
      (self.get env n s tag index).2.1.nodes.length := by
  unfold DispObject.get
  simp only []
  generalize self.ensure_prepared env n s = p
  obtain ⟨self1, s1⟩ := p
  simp only []
  cases self1.disp with
  | none => exact ⟨rfl, le_refl _⟩
  | some d =>
      cases tag with
      | none => exact get_found_frame env n self1 s1 d _ _ _ _
      | some tag =>
          simp only []
          have h1 := get_found_frame env n self1
            { s1 with trace := s1.trace ++ [Event.FindProperty d.ptr tag] } d tag
            self1.dispid true index
          have h2 := get_found_frame env n self1
            { s1 with trace := s1.trace ++ [Event.FindProperty d.ptr tag] } d tag
            (env.FindProperty s1.trace d tag).2 false index
          simp only [prepareCount, List.countP_append, List.countP_cons, List.countP_nil,
            Bool.false_eq_true, if_false, Nat.add_zero, Nat.zero_add] at h1 h2
          split_ifs
          all_goals first
            | exact h1
            | exact h2
            | simp [prepareCount, List.countP_append, List.countP_cons]

theorem set_fst (env : Env) (n : NodeId) (self : DispObject) (s : State)
    (tag : Option String) (index : Int) (value : HostValue) :
    (self.set env n s tag index value).1 = (self.ensure_prepared env n s).1 := by
  unfold DispObject.set
  simp only []
  repeat' split
  all_goals rfl

set_option maxHeartbeats 1600000 in
theorem set_frame (env : Env) (n : NodeId) (self : DispObject) (s : State)
    (tag : Option String) (index : Int) (value : HostValue) :
    prepareCount n (self.set env n s tag index value).2.1.trace =
      prepareCount n (self.ensure_prepared env n s).2.trace ∧
    (self.ensure_prepared env n s).2.nodes.length ≤
      (self.set env n s tag index value).2.1.nodes.length := by
  unfold DispObject.set
  simp only []
  generalize self.ensure_prepared env n s = p
  obtain ⟨self1, s1⟩ := p
  generalize (if 0 ≤ index then [Variant.int index] else []) = ix
  simp only []
  cases self1.disp with
  | none => exact ⟨rfl, le_refl _⟩
  | some d =>
      cases tag with
      | none =>
          simp only []
          generalize env.SetProperty s1.trace d self1.dispid = sp
          repeat' split
          all_goals
            simp [NodeCreateObj_trace, NodeCreateObj_length, prepareCount, List.countP_append,
              List.countP_cons]
      | some tag =>
          simp only []
          generalize env.FindProperty s1.trace d tag = r
          generalize env.SetProperty (s1.trace ++ [Event.FindProperty d.ptr tag]) d = sp
          split_ifs <;> simp only [] <;> (repeat' split) <;>
            simp [NodeCreateObj_trace, NodeCreateObj_length, prepareCount, List.countP_append,
              List.countP_cons]

theorem valueOf_fst (env : Env) (n : NodeId) (self : DispObject) (s : State) :
    (self.valueOf env n s).1 = (self.ensure_prepared env n s).1 := by
  unfold DispObject.valueOf
  simp only []
  repeat' split
  all_goals rfl

theorem valueOf_frame (env : Env) (n : NodeId) (self : DispObject) (s : State) :
    prepareCount n (self.valueOf env n s).2.1.trace =
      prepareCount n (self.ensure_prepared env n s).2.trace ∧
    (self.ensure_prepared env n s).2.nodes.length ≤ (self.valueOf env n s).2.1.nodes.length := by
  unfold DispObject.valueOf
  simp only []
  generalize self.ensure_prepared env n s = p
  obtain ⟨self1, s1⟩ := p
  simp only []
  repeat' split
  all_goals simp [prepareCount, List.countP_append, List.countP_cons]

theorem valueOfVariant_fst (env : Env) (n : NodeId) (self : DispObject) (s : State) :
    (self.valueOfVariant env n s).1 = (self.ensure_prepared env n s).1 := by
  unfold DispObject.valueOfVariant
  simp only []
  repeat' split
  all_goals rfl

theorem valueOfVariant_frame (env : Env) (n : NodeId) (self : DispObject) (s : State) :
    prepareCount n (self.valueOfVariant env n s).2.1.trace =
      prepareCount n (self.ensure_prepared env n s).2.trace ∧
    (self.ensure_prepared env n s).2.nodes.length ≤
      (self.valueOfVariant env n s).2.1.nodes.length := by
  unfold DispObject.valueOfVariant
  simp only []
  generalize self.ensure_prepared env n s = p
  obtain ⟨self1, s1⟩ := p
  simp only []
  repeat' split
  all_goals simp [prepareCount, List.countP_append, List.countP_cons]

theorem toString_fst (env : Env) (n : NodeId) (self : DispObject) (s : State) :
    (self.toString env n s).1 = (self.ensure_prepared env n s).1 := by
  unfold DispObject.toString
  simp only []
  split <;> exact valueOfVariant_fst env n self s

theorem toString_frame (env : Env) (n : NodeId) (self : DispObject) (s : State) :
    prepareCount n (self.toString env n s).2.1.trace =
      prepareCount n (self.ensure_prepared env n s).2.trace ∧
    (self.ensure_prepared env n s).2.nodes.length ≤
      (self.toString env n s).2.1.nodes.length := by
  unfold DispObject.toString
  simp only []
  split <;> exact valueOfVariant_frame env n self s

/-- What a preparing operation does to the receiver: the node stored back is the
prepared receiver, and no preparing get is issued beyond the one of
`ensure_prepared`. -/
theorem stored_back (env : Env) (hp : env.option_prepared ≠ 0) (n : NodeId)
    (self : DispObject) (s : State) (hself : s.nodes[n]? = some self)
    (self1 : DispObject) (st : State)
    (h1 : self1 = (self.ensure_prepared env n s).1)
    (h2 : prepareCount n st.trace = prepareCount n (self.ensure_prepared env n s).2.trace)
    (h3 : (self.ensure_prepared env n s).2.nodes.length ≤ st.nodes.length) :
    ({ st with nodes := st.nodes.set n self1 } : State).nodes[n]? = some self1 ∧
    self1.is_prepared env = true ∧
    prepareCount n ({ st with nodes := st.nodes.set n self1 } : State).trace
      ≤ prepareCount n s.trace + 1 ∧
    (self.is_prepared env = true →
      prepareCount n ({ st with nodes := st.nodes.set n self1 } : State).trace
        = prepareCount n s.trace) := by
  have hlt : n < s.nodes.length := by
    by_contra hge
    rw [List.getElem?_eq_none (not_lt.mp hge)] at hself
    cases hself
  rw [ensure_nodes] at h3
  have hlt2 : n < st.nodes.length := lt_of_lt_of_le hlt h3
  refine ⟨?_, ?_, ?_, ?_⟩
  · simp only [List.getElem?_set]
    simp [hlt2]
  · rw [h1]; exact is_prepared_ensure env hp n self s
  · simp only [h2]
    exact ensure_count env n self s
  · intro hprep
    simp only [h2]
    rw [ensure_prepared_of_prepared env n self s hprep]

theorem NodeCreateObj_nodes_append (env : Env) (s : State) (ptr : DispInfo) (name : String)
    (id : DISPID) (index : Int) (opt : Nat) (base : List DispObject) (h : s.nodes = base) :
    ∃ l, (NodeCreateObj env s ptr name id index opt).1.nodes = base ++ l := by
  subst h
  unfold NodeCreateObj
  split
  · exact ⟨_, rfl⟩
  · exact ⟨[], by simp⟩

theorem call_frame (env : Env) (n : NodeId) (self : DispObject) (s : State)
    (args : List HostValue) :
    prepareCount n (self.call env s args).1.trace = prepareCount n s.trace ∧
    ∃ l, (self.call env s args).1.nodes = s.nodes ++ l := by
  unfold DispObject.call
  simp only []
  generalize env.VarArguments args = vargs
  generalize env.ExecuteMethod s.trace = em
  generalize env.GetProperty s.trace = gp
  cases self.disp with
  | none => exact ⟨rfl, [], by simp⟩
  | some d =>
      simp only []
      split_ifs <;> (repeat' split) <;> constructor
      all_goals first
        | exact ⟨[], (List.append_nil s.nodes).symm⟩
        | exact NodeCreateObj_nodes_append env _ _ _ _ _ _ _ rfl
        | simp [NodeCreateObj_trace, prepareCount, List.countP_append, List.countP_cons]

/-- One step of a sequence of operations on a node that is in the heap. -/
theorem run_spec (env : Env) (hp : env.option_prepared ≠ 0) (n : NodeId) (s : State)
    (op : NodeOp) (self : DispObject) (hself : s.nodes[n]? = some self) :
    ∃ self1, (op.run env n s).nodes[n]? = some self1 ∧
      (self.is_prepared env = true → self1.is_prepared env = true) ∧
      (op.prepares = true → self1.is_prepared env = true) ∧
      (self.is_prepared env = true →
        prepareCount n (op.run env n s).trace = prepareCount n s.trace) ∧
      ((prepareCount n (op.run env n s).trace = prepareCount n s.trace) ∨
        (self1.is_prepared env = true ∧
          prepareCount n (op.run env n s).trace ≤ prepareCount n s.trace + 1)) := by
  have hlt : n < s.nodes.length := by
    by_contra hge
    rw [List.getElem?_eq_none (not_lt.mp hge)] at hself
    cases hself
  have key : ∀ (self1 : DispObject) (st : State),
      self1 = (self.ensure_prepared env n s).1 →
      prepareCount n st.trace = prepareCount n (self.ensure_prepared env n s).2.trace →
      (self.ensure_prepared env n s).2.nodes.length ≤ st.nodes.length →
      ∃ x, ({ st with nodes := st.nodes.set n self1 } : State).nodes[n]? = some x ∧
        (self.is_prepared env = true → x.is_prepared env = true) ∧
        (op.prepares = true → x.is_prepared env = true) ∧
        (self.is_prepared env = true →
          prepareCount n ({ st with nodes := st.nodes.set n self1 } : State).trace
            = prepareCount n s.trace) ∧
        ((prepareCount n ({ st with nodes := st.nodes.set n self1 } : State).trace
            = prepareCount n s.trace) ∨
          (x.is_prepared env = true ∧
            prepareCount n ({ st with nodes := st.nodes.set n self1 } : State).trace
              ≤ prepareCount n s.trace + 1)) := by
    intro self1 st h1 h2 h3
    obtain ⟨ha, hb, hc, hd⟩ := stored_back env hp n self s hself self1 st h1 h2 h3
    exact ⟨self1, ha, fun _ => hb, fun _ => hb, hd, Or.inr ⟨hb, hc⟩⟩
  unfold NodeOp.run
  simp only [hself]
  cases op with
  | get tag index =>
      exact key _ _ (get_fst env n self s tag index)
        (get_frame env n self s tag index).1 (get_frame env n self s tag index).2
  | set tag index value =>
      exact key _ _ (set_fst env n self s tag index value)
        (set_frame env n self s tag index value).1 (set_frame env n self s tag index value).2
  | valueOf =>
      exact key _ _ (valueOf_fst env n self s)
        (valueOf_frame env n self s).1 (valueOf_frame env n self s).2
  | valueOfVariant =>
      exact key _ _ (valueOfVariant_fst env n self s)
        (valueOfVariant_frame env n self s).1 (valueOfVariant_frame env n self s).2
  | toString =>
      exact key _ _ (toString_fst env n self s)
        (toString_frame env n self s).1 (toString_frame env n self s).2
  | call args =>
      obtain ⟨hc, l, hl⟩ := call_frame env n self s args
      refine ⟨self, ?_, fun h => h, ?_, fun _ => hc, Or.inl hc⟩
      · rw [hl, List.getElem?_append_left hlt]
        exact hself
      · intro h
        cases h
  | release =>
      refine ⟨self.release.1, ?_, ?_, ?_, fun _ => rfl, Or.inl rfl⟩
      · simp only [List.getElem?_set]
        simp [hlt]
      · intro h
        unfold DispObject.release
        split <;> exact h
      · intro h
        cases h

theorem runOps_missing (env : Env) (n : NodeId) (ops : List NodeOp) :
    ∀ s : State, s.nodes[n]? = none → runOps env n s ops = s := by
  induction ops with
  | nil => intro s _; rfl
  | cons op rest ih =>
      intro s h
      have hrun : op.run env n s = s := by
        unfold NodeOp.run
        simp [h]
      unfold runOps at ih ⊢
      rw [List.foldl_cons, hrun]
      exact ih s h

theorem runOps_prepared (env : Env) (hp : env.option_prepared ≠ 0) (n : NodeId)
    (ops : List NodeOp) :
    ∀ (s : State) (self : DispObject), s.nodes[n]? = some self → self.is_prepared env = true →
      prepareCount n (runOps env n s ops).trace = prepareCount n s.trace ∧
      ∃ self1, (runOps env n s ops).nodes[n]? = some self1 ∧ self1.is_prepared env = true := by
  induction ops with
  | nil =>
      intro s self hself hprep
      exact ⟨rfl, self, hself, hprep⟩
  | cons op rest ih =>
      intro s self hself hprep
      obtain ⟨self1, hs1, hp1, _, heq, _⟩ := run_spec env hp n s op self hself
      obtain ⟨hc, hex⟩ := ih (op.run env n s) self1 hs1 (hp1 hprep)
      have hfold : runOps env n s (op :: rest) = runOps env n (op.run env n s) rest := rfl
      rw [hfold]
      exact ⟨by rw [hc, heq hprep], hex⟩

theorem runOps_count (env : Env) (hp : env.option_prepared ≠ 0) (n : NodeId)
    (ops : List NodeOp) :
    ∀ s : State, prepareCount n (runOps env n s ops).trace ≤ prepareCount n s.trace + 1 := by
  induction ops with
  | nil =>
      intro s
      exact Nat.le_succ _
  | cons op rest ih =>
      intro s
      cases hself : s.nodes[n]? with
      | none =>
          rw [runOps_missing env n (op :: rest) s hself]
          exact Nat.le_succ _
      | some self =>
          obtain ⟨self1, hs1, _, _, _, hcase⟩ := run_spec env hp n s op self hself
          have hfold : runOps env n s (op :: rest) = runOps env n (op.run env n s) rest := rfl
          rw [hfold]
          rcases hcase with heq | ⟨hp1, hle⟩
          · rw [← heq]
            exact ih (op.run env n s)
          · rw [(runOps_prepared env hp n rest (op.run env n s) self1 hs1 hp1).1]
            exact hle

/-! ### Identity paths -/

theorem release_disp_none (self : DispObject) : self.release.1.disp = none := by
  cases h : self.disp <;> simp [DispObject.release, h]

theorem holds_set (s : State) (k : NodeId) (nd : DispObject) (id : NodeId) :
    ({ s with nodes := s.nodes.set k nd } : State).holds id =
      if k = id then (decide (k < s.nodes.length) && nd.disp.isSome) else s.holds id := by
  unfold State.holds
  simp only [List.getElem?_set]
  by_cases hk : k = id
  · subst hk
    by_cases hlt : k < s.nodes.length
    · simp [hlt]
    · simp [hlt, List.getElem?_eq_none (not_lt.mp hlt)]
  · simp [hk]

theorem holds_lt (s : State) (id : NodeId) (h : s.holds id = true) : id < s.nodes.length := by
  unfold State.holds at h
  by_contra hge
  rw [List.getElem?_eq_none (not_lt.mp hge)] at h
  simp at h

theorem release_loop_spec (args : List HostValue) :
    ∀ (s : State) (rcnt : Nat),
      (∀ obj ∈ args, obj.IsObject = true → ∃ id, obj = HostValue.node id) →
      (NodeRelease.loop s rcnt args).2 = some (rcnt + (heldNodes s args).card) ∧
      (NodeRelease.loop s rcnt args).1.nodes.length = s.nodes.length ∧
      ∀ id, (NodeRelease.loop s rcnt args).1.holds id =
        (s.holds id && decide (HostValue.node id ∉ args)) := by
  induction args with
  | nil =>
      intro s rcnt _
      simp [NodeRelease.loop, heldNodes]
  | cons obj rest ih =>
      intro s rcnt hobj
      have hrest : ∀ o ∈ rest, o.IsObject = true → ∃ id, o = HostValue.node id :=
        fun o ho => hobj o (List.mem_cons_of_mem obj ho)
      have hskip : (∀ k, obj = HostValue.node k → s.nodes[k]? = none) →
          NodeRelease.loop s rcnt (obj :: rest) = NodeRelease.loop s rcnt rest := by
        intro h
        cases obj with
        | node k => simp [NodeRelease.loop, HostValue.IsObject, Unwrap, h k rfl]
        | object props =>
            obtain ⟨id, hid⟩ := hobj (HostValue.object props) (List.mem_cons_self _ _) rfl
            cases hid
        | undefined => simp [NodeRelease.loop, HostValue.IsObject]
        | null => simp [NodeRelease.loop, HostValue.IsObject]
        | bool b => simp [NodeRelease.loop, HostValue.IsObject]
        | int i => simp [NodeRelease.loop, HostValue.IsObject]
        | str x => simp [NodeRelease.loop, HostValue.IsObject]
      by_cases hnode : ∃ k nd, obj = HostValue.node k ∧ s.nodes[k]? = some nd
      · obtain ⟨k, nd, rfl, hk⟩ := hnode
        have hklt : k < s.nodes.length := by
          by_contra hge
          rw [List.getElem?_eq_none (not_lt.mp hge)] at hk
          cases hk
        have hstep : NodeRelease.loop s rcnt (HostValue.node k :: rest) =
            NodeRelease.loop { s with nodes := s.nodes.set k nd.release.1 }
              (if nd.release.2 then rcnt + 1 else rcnt) rest := by
          simp [NodeRelease.loop, HostValue.IsObject, Unwrap, hk]
        obtain ⟨ih1, ih2, ih3⟩ := ih { s with nodes := s.nodes.set k nd.release.1 }
          (if nd.release.2 then rcnt + 1 else rcnt) hrest
        have hrel1 : nd.release.1.disp = none := (release_disp_none nd)
        have hholds1 : ∀ id, ({ s with nodes := s.nodes.set k nd.release.1 } : State).holds id
            = (s.holds id && decide (k ≠ id)) := by
          intro id
          rw [holds_set]
          by_cases hkid : k = id
          · simp [hkid, hrel1]
          · simp [hkid]
        have hholdsk : s.holds k = nd.release.2 := by
          unfold State.holds
          rw [hk]
          cases hd : nd.disp <;> simp [DispObject.release, hd]
        rw [hstep]
        refine ⟨?_, ?_, ?_⟩
        · rw [ih1]
          have hset : heldNodes s (HostValue.node k :: rest) =
              if nd.release.2 then
                insert k (heldNodes { s with nodes := s.nodes.set k nd.release.1 } rest)
              else heldNodes { s with nodes := s.nodes.set k nd.release.1 } rest := by
            ext id
            unfold heldNodes
            split
            · rename_i hr
              simp only [Finset.mem_insert, Finset.mem_filter, Finset.mem_range, hholds1,
                List.length_set, List.mem_cons, HostValue.node.injEq, Bool.and_eq_true,
                decide_eq_true_eq]
              constructor
              · rintro ⟨hlt, hh, hid | hmem⟩
                · exact Or.inl hid
                · by_cases hkid : k = id
                  · exact Or.inl hkid.symm
                  · exact Or.inr ⟨hlt, ⟨hh, hkid⟩, hmem⟩
              · rintro (hid | ⟨hlt, ⟨hh, _⟩, hmem⟩)
                · subst hid
                  exact ⟨hklt, by rw [hholdsk]; exact hr, Or.inl rfl⟩
                · exact ⟨hlt, hh, Or.inr hmem⟩
            · rename_i hr
              simp only [Finset.mem_filter, Finset.mem_range, hholds1,
                List.length_set, List.mem_cons, HostValue.node.injEq, Bool.and_eq_true,
                decide_eq_true_eq]
              constructor
              · rintro ⟨hlt, hh, hid | hmem⟩
                · subst hid
                  rw [hholdsk] at hh
                  exact absurd hh hr
                · refine ⟨hlt, ⟨hh, ?_⟩, hmem⟩
                  intro hkid
                  subst hkid
                  rw [hholdsk] at hh
                  exact absurd hh hr
              · rintro ⟨hlt, ⟨hh, _⟩, hmem⟩
                exact ⟨hlt, hh, Or.inr hmem⟩
          rw [hset]
          by_cases hr : nd.release.2 = true
          · have hnot : k ∉ heldNodes { s with nodes := s.nodes.set k nd.release.1 } rest := by
              unfold heldNodes
              simp [hholds1]
            simp only [hr, if_true]
            rw [Finset.card_insert_of_not_mem hnot]
            congr 1
            omega
          · simp only [hr, if_false]
            simp
        · rw [ih2]
          simp
        · intro id
          rw [ih3, hholds1]
          by_cases hkid : k = id
          · subst hkid
            simp
          · have : id ≠ k := fun h => hkid h.symm
            simp [hkid, this]
      · have hnone : ∀ k, obj = HostValue.node k → s.nodes[k]? = none := by
          intro k hobj
          cases hk : s.nodes[k]? with
          | none => rfl
          | some nd => exact absurd ⟨k, nd, hobj, hk⟩ hnode
        rw [hskip hnone]
        obtain ⟨ih1, ih2, ih3⟩ := ih s rcnt hrest
        refine ⟨?_, ih2, ?_⟩
        · rw [ih1]
          congr 3
          ext id
          unfold heldNodes
          simp only [Finset.mem_filter, Finset.mem_range, List.mem_cons]
          constructor
          · rintro ⟨hlt, hh, hmem⟩
            exact ⟨hlt, hh, Or.inr hmem⟩
          · rintro ⟨hlt, hh, hid | hmem⟩
            · have := hnone id hid.symm
              rw [List.getElem?_eq_none_iff] at this
              omega
            · exact ⟨hlt, hh, hmem⟩
        · intro id
          rw [ih3]
          by_cases hobj : obj = HostValue.node id
          · have hn := hnone id hobj
            have hh : s.holds id = false := by
              unfold State.holds
              rw [hn]
            simp [hh]
          · have : HostValue.node id ≠ obj := fun h => hobj h.symm
            simp [List.mem_cons, this]

/-! ### The factory -/

/-- Called as a plain function, the factory builds from nothing but its first argument.
Stated for options that are no wrapper node: reading the options of a wrapper node
runs its property interceptor, which `NodeCreate.options` does not follow. -/
theorem NodeCreate_plain_first_argument (env : Env) (s : State) (a : HostValue)
    (rest : List HostValue) (_hopt : ∀ id, rest.head? ≠ some (HostValue.node id)) :
    NodeCreate env s (a :: rest) false = NodeCreate env s [a] false := by
  simp [NodeCreate]

/-- C1 (the code at the failing input): called with `new`, the factory applied to
`("Demo.App", { activate: true })` builds a root node with the activate flag (4) in
its options and tries `GetActiveObject` first; called without `new` on the same
arguments it builds a root node without the flag and never tries `GetActiveObject`,
because only `args[0]` is handed to the constructor. -/
theorem NodeCreate_plain_drops_options :
    (NodeCreate demoEnv demoInit demoActivateArgs true).1.nodes =
      [{ disp := some (DispInfo.root 0 1 "Demo.App" 7), options := 0x107, name := "Demo.App",
         dispid := DISPID_VALUE, index := -1 }] ∧
    (NodeCreate demoEnv demoInit demoActivateArgs true).1.trace =
      [Event.CLSIDFromProgID "Demo.App", Event.GetActiveObject 42, Event.CoCreateInstance 42] ∧
    (NodeCreate demoEnv demoInit demoActivateArgs false).1.nodes =
      [{ disp := some (DispInfo.root 0 1 "Demo.App" 3), options := 0x103, name := "Demo.App",
         dispid := DISPID_VALUE, index := -1 }] ∧
    (NodeCreate demoEnv demoInit demoActivateArgs false).1.trace =
      [Event.CLSIDFromProgID "Demo.App", Event.CoCreateInstance 42] ∧
    (NodeCreate demoEnv demoInit demoActivateArgs false).2 =
      ⟨true, none, some (HostValue.node 0)⟩ := by
  decide

/-- C6: `release` returns true exactly when the node held a DispatchInfo, the node
holds none afterwards, and a second release returns false and changes nothing. -/
theorem release_idempotent (self : DispObject) :
    (self.release.2 = true ↔ self.disp.isSome = true) ∧
    self.release.1.disp = none ∧
    self.release.1.release = (self.release.1, false) := by
  cases h : self.disp <;> simp [DispObject.release, h]

/-- On an argument list whose objects are all wrapper nodes, `NodeRelease` returns the
number of distinct wrapper nodes among its arguments that held a DispatchInfo before
the call (a node passed twice counts once, arguments that are no objects and nodes
already released count zero); afterwards every wrapper node among the arguments is
released, and the nodes that are not among the arguments hold what they held. -/
theorem NodeRelease_count (s : State) (args : List HostValue)
    (hobj : ∀ obj ∈ args, obj.IsObject = true → ∃ id, obj = HostValue.node id) :
    (NodeRelease s args).2 = some (heldNodes s args).card ∧
    (∀ id, HostValue.node id ∈ args → (NodeRelease s args).1.holds id = false) ∧
    (∀ id, HostValue.node id ∉ args → (NodeRelease s args).1.holds id = s.holds id) := by
  obtain ⟨h1, _, h3⟩ := release_loop_spec args s 0 hobj
  refine ⟨?_, ?_, ?_⟩
  · unfold NodeRelease
    rw [h1, Nat.zero_add]
  · intro id hmem
    unfold NodeRelease
    rw [h3]
    simp [hmem]
  · intro id hmem
    unfold NodeRelease
    rw [h3]
    simp [hmem]

/-- Whatever precedes it, a plain host object among the arguments makes `NodeRelease`
abort in `Unwrap`: no count is returned. -/
theorem NodeRelease_loop_aborts (props : List (String × Prim)) (args : List HostValue) :
    ∀ (s : State) (rcnt : Nat), HostValue.object props ∈ args →
      (NodeRelease.loop s rcnt args).2 = none := by
  induction args with
  | nil =>
      intro s rcnt h
      cases h
  | cons obj rest ih =>
      intro s rcnt h
      by_cases hobj : obj = HostValue.object props
      · subst hobj
        simp [NodeRelease.loop, HostValue.IsObject, Unwrap]
      · have hmem : HostValue.object props ∈ rest := by
          rcases List.mem_cons.mp h with h1 | h1
          · exact absurd h1.symm hobj
          · exact h1
        unfold NodeRelease.loop
        split
        · split
          · rfl
          · exact ih _ _ hmem
          · exact ih _ _ hmem
        · exact ih _ _ hmem

/-- C9: preparation is memoized. Over any sequence of get, set, valueOf, toString (and
call and release) on a node the preparing property-get of `prepare` is issued at most
once; `prepare` always sets the prepared flag; on a prepared node no operation issues
the preparing get and the flag stays set; each of get, set, valueOf and toString
leaves the node prepared; and a node constructed with the unresolved member id is
prepared from the start. -/
theorem prepare_memoized (env : Env) (hp : env.option_prepared ≠ 0) (n : NodeId) (s : State)
    (ops : List NodeOp) :
    prepareCount n (runOps env n s ops).trace ≤ prepareCount n s.trace + 1 ∧
    (∀ (self : DispObject) (s0 : State), (self.prepare env n s0).1.is_prepared env = true) ∧
    (∀ self, s.nodes[n]? = some self → self.is_prepared env = true →
      prepareCount n (runOps env n s ops).trace = prepareCount n s.trace ∧
      ∃ self1, (runOps env n s ops).nodes[n]? = some self1 ∧ self1.is_prepared env = true) ∧
    (∀ self op, s.nodes[n]? = some self → NodeOp.prepares op = true →
      ∃ self1, (NodeOp.run env n s op).nodes[n]? = some self1 ∧
        self1.is_prepared env = true) ∧
    (∀ ptr nm indx opt,
      (DispObject.init env ptr nm DISPID_UNKNOWN indx opt).is_prepared env = true) := by
  refine ⟨runOps_count env hp n ops s, ?_, ?_, ?_, ?_⟩
  · intro self s0
    exact is_prepared_prepare env hp n self s0
  · intro self hself hprep
    exact runOps_prepared env hp n ops s self hself hprep
  · intro self op hself hop
    obtain ⟨self1, hs1, _, hp1, _, _⟩ := run_spec env hp n s op self hself
    exact ⟨self1, hs1, hp1 hop⟩
  · intro ptr nm indx opt
    simp [DispObject.init, DispObject.is_prepared, or_and_self_flag, hp]

/-- Witness for C9: on the never-prepared wrapper of `root.Quit`, a call, a get, a set,
a valueOf and a toString issue the preparing get at most once. -/
theorem prepare_memoized_witness :
    prepareCount 1 (runOps demoEnv 1 demoQuit
      [NodeOp.call [], NodeOp.get (some "Visible") (-1),
        NodeOp.set (some "Visible") (-1) (HostValue.bool true),
        NodeOp.valueOf, NodeOp.toString]).trace ≤ prepareCount 1 demoQuit.trace + 1 :=
  (prepare_memoized demoEnv (by decide) 1 demoQuit
    [NodeOp.call [], NodeOp.get (some "Visible") (-1),
      NodeOp.set (some "Visible") (-1) (HostValue.bool true),
      NodeOp.valueOf, NodeOp.toString]).1

/-! ### Released nodes -/

theorem ensure_released (env : Env) (n : NodeId) (self : DispObject) (s : State)
    (h : self.disp = none) :
    (self.ensure_prepared env n s).2 = s ∧ (self.ensure_prepared env n s).1.disp = none := by
  unfold DispObject.ensure_prepared
  split
  · exact ⟨rfl, h⟩
  · unfold DispObject.prepare
    simp [h, VariantDispGet]

/-- C11: on a released node (one that holds no DispatchInfo), prepared or not, each of
get, set and call raises the null-reference error, leaves no return value, and leaves
the state as it was: no native lookup or invocation is issued, no node and no
DispatchInfo is created; the node is still released afterwards. -/
theorem released_raises_null (env : Env) (n : NodeId) (self : DispObject) (s : State)
    (tag : Option String) (index : Int) (value : HostValue) (args : List HostValue)
    (h : self.disp = none) :
    (self.get env n s tag index).2 = (s, ⟨false, some HostError.DispErrorNull, none⟩) ∧
    (self.get env n s tag index).1.disp = none ∧
    (self.set env n s tag index value).2 = (s, ⟨false, some HostError.DispErrorNull, none⟩) ∧
    (self.set env n s tag index value).1.disp = none ∧
    self.call env s args = (s, ⟨false, some HostError.DispErrorNull, none⟩) := by
  obtain ⟨hs, hd⟩ := ensure_released env n self s h
  refine ⟨?_, ?_, ?_, ?_, ?_⟩
  · unfold DispObject.get
    simp only [hd, hs]
  · rw [get_fst]
    exact hd
  · unfold DispObject.set
    simp only [hd, hs]
  · rw [set_fst]
    exact hd
  · unfold DispObject.call
    simp only [h]

/-- Witness for C11: the wrapper of `root.Quit` after its release; the get of `Visible`
on it raises the null-reference error and the heap is as before. -/
theorem released_raises_null_witness :
    demoQuitReleased.nodes[1]? = some demoQuitNodeReleased ∧
    (demoQuitNodeReleased.get demoEnv 1 demoQuitReleased (some "Visible") (-1)).2 =
      (demoQuitReleased, ⟨false, some HostError.DispErrorNull, none⟩) :=
  ⟨by decide,
    (released_raises_null demoEnv 1 demoQuitNodeReleased demoQuitReleased (some "Visible")
      (-1) HostValue.undefined [] (by decide)).1⟩

end Winax
